import Mathlib

set_option linter.unusedVariables false

/-!
Verification development for the gasfire rendering pipeline.

JavaScript numbers are modelled as exact rationals; the 32-bit integer
operations used by the xorshift generator are modelled on ℤ with explicit
reduction modulo 2^32.  parseInt results that would be NaN are modelled as
`none : Option ℤ`; a NaN state word coerces to 0 under the bitwise state
update, exactly as ToInt32/ToUint32 map NaN to 0 in JavaScript.
Division on ℚ is total with q / 0 = 0, which is noted wherever the
JavaScript source could divide by zero.
-/

namespace Gasfire

/-! ## 32-bit integer semantics of the JavaScript operators -/

/-- Unsigned 32-bit reduction, the ToUint32 conversion applied to an integer. -/
def u32 (n : ℤ) : ℕ := (n % 4294967296).toNat

/-- Signed 32-bit reduction, the ToInt32 conversion applied to an integer. -/
def toI32 (n : ℤ) : ℤ :=
  let m := n % 4294967296
  if m < 2147483648 then m else m - 4294967296

/-- Bitwise xor of two JavaScript numbers, performed on 32-bit patterns. -/
def xor32 (a b : ℤ) : ℤ := toI32 (Nat.xor (u32 a) (u32 b))

/-- Left shift by k with 32-bit signed wraparound, the JavaScript a << k. -/
def shl32 (a : ℤ) (k : ℕ) : ℤ := toI32 (a * 2 ^ k)

/-- Unsigned right shift by k, the JavaScript a >>> k. -/
def ushr32 (a : ℤ) (k : ℕ) : ℤ := ((u32 a) / 2 ^ k : ℕ)

/-- Truncation toward zero of a rational, as JavaScript computes for the
remainder operator. -/
def jsTrunc (q : ℚ) : ℤ := if 0 ≤ q then ⌊q⌋ else -⌊-q⌋

/-- The JavaScript remainder a % b on numbers (sign of the dividend,
truncated division).  For b = 0 JavaScript yields NaN; this total model
yields a there, and no guarded call site passes b = 0. -/
def jsMod (a b : ℚ) : ℚ := a - b * (jsTrunc (a / b) : ℤ)

/-- The JavaScript Math.floor on a rational value. -/
def jsFloor (q : ℚ) : ℚ := (⌊q⌋ : ℚ)

/-- A JavaScript number that is either an integer value or NaN (`none`).
Only parseInt can introduce NaN into the generator state. -/
abbrev JSNum := Option ℤ

/-- ToInt32/ToUint32 read of a possibly-NaN word: NaN coerces to 0. -/
def jsBits (v : JSNum) : ℤ := v.getD 0

/-! ## XorShift (src/render/gasfire/xorshift.ts) -/

/-- Generator state: the four words x, y, z, w of the xorshift register. -/
structure XorShift where
  x : JSNum
  y : JSNum
  z : JSNum
  w : JSNum
deriving DecidableEq

/-- The nextInt step: t = x ^ (x << 11); rotate x←y←z←w;
w = (w ^ (w >>> 19)) ^ (t ^ (t >>> 8)); return w. -/
def XorShift.nextInt (s : XorShift) : ℤ × XorShift :=
  let t := xor32 (jsBits s.x) (shl32 (jsBits s.x) 11)
  let w := xor32 (xor32 (jsBits s.w) (ushr32 (jsBits s.w) 19))
                 (xor32 t (ushr32 t 8))
  (w, ⟨s.y, s.z, s.w, some w⟩)

/-- The nextIntBet draw, with the source parameters from/to written lo/hi:
returns 0 without consuming state when to - from <= 0, otherwise
from + abs(nextInt()) % (to - from). -/
def XorShift.nextIntBet (s : XorShift) (lo hi : ℚ) : ℚ × XorShift :=
  if hi - lo ≤ 0 then (0, s)
  else
    let (n, s') := s.nextInt
    (lo + jsMod |(n : ℚ)| (hi - lo), s')

/-! ### Seeding (getDeterministicRandomBy) -/

/-- Value of a single hexadecimal digit, none for a non-hex character. -/
def hexVal (c : Char) : Option ℕ :=
  if '0' ≤ c ∧ c ≤ '9' then some (c.toNat - '0'.toNat)
  else if 'a' ≤ c ∧ c ≤ 'f' then some (c.toNat - 'a'.toNat + 10)
  else if 'A' ≤ c ∧ c ≤ 'F' then some (c.toNat - 'A'.toNat + 10)
  else none

/-- The JavaScript parseInt(s, 16): skip an optional 0x/0X prefix, read the
longest leading run of hex digits, NaN (`none`) when that run is empty.
Leading whitespace and sign handling are omitted; no input of this code
base contains them. -/
def parseIntHex (cs : List Char) : Option ℤ :=
  let cs := match cs with
    | '0' :: 'x' :: rest => rest
    | '0' :: 'X' :: rest => rest
    | _ => cs
  let ds := cs.takeWhile (fun c => (hexVal c).isSome)
  if ds.isEmpty then none
  else some ((ds.foldl (fun acc c => acc * 16 + ((hexVal c).getD 0)) 0 : ℕ) : ℤ)

/-- Clamped start index of String.prototype.slice. -/
def sliceStart (n : ℕ) (a : ℤ) : ℕ :=
  if a < 0 then (max ((n : ℤ) + a) 0).toNat else (min a (n : ℤ)).toNat

/-- Clamped stop index of String.prototype.slice. -/
def sliceStop (n : ℕ) (b : ℤ) : ℕ :=
  if b < 0 then (max ((n : ℤ) + b) 0).toNat else (min b (n : ℤ)).toNat

/-- The JavaScript s.slice(a, b) on a list of characters: negative indices
count from the end, indices are clamped to [0, length], and the result is
empty when the clamped start is at or past the clamped stop. -/
def jsSlice (cs : List Char) (a b : ℤ) : List Char :=
  (cs.take (sliceStop cs.length b)).drop (sliceStart cs.length a)

/-- One 8-character chunk of the address, as sliced by the seeding loop at
iteration i: address.slice(len - 8(i+1), len - 8(i+1) + 8). -/
def addressChunk (cs : List Char) (i : ℕ) : List Char :=
  jsSlice cs ((cs.length : ℤ) - 8 * ((i : ℤ) + 1)) ((cs.length : ℤ) - 8 * ((i : ℤ) + 1) + 8)

/-- The seeding routine: four 8-character chunks are sliced from the end of
the address, parsed as base-16 integers and unshifted onto a list, so the
state becomes (x, y, z, w) = (chunk 3, chunk 2, chunk 1, chunk 0).  No
rejection path exists; an empty or non-hex chunk parses to NaN. -/
def getDeterministicRandomBy (address : String) : XorShift :=
  let cs := address.data
  ⟨parseIntHex (addressChunk cs 3), parseIntHex (addressChunk cs 2),
   parseIntHex (addressChunk cs 1), parseIntHex (addressChunk cs 0)⟩

/-! ## Tier and palette (src/render/gasfire/tier.ts) -/

/-- Ascending boundary table of the tier lookup. -/
def tierBoundaries : List ℤ := [50000, 100000, 500000, 1000000, 5000000, 10000000, 50000000]

/-- The loop of checkTierOf: count boundaries until the first one strictly
above gasUsed, mirroring the break in the source. -/
def checkTierOfLoop (gasUsed : ℤ) : List ℤ → ℤ
  | [] => 0
  | b :: bs => if gasUsed < b then 0 else checkTierOfLoop gasUsed bs + 1

/-- checkTierOf returns the loop count plus one. -/
def checkTierOf (gasUsed : ℤ) : ℤ := checkTierOfLoop gasUsed tierBoundaries + 1

/-- A three-color palette entry. -/
structure TieredFireColor where
  outer : String
  middle : String
  inner : String
deriving DecidableEq

/-- The fixed palette table, one entry per tier. -/
def tierFireColor : List TieredFireColor :=
  [⟨"#414141", "#797979", "#ffffff"⟩,
   ⟨"#f86124", "#f6a223", "#f6e989"⟩,
   ⟨"#408600", "#46ff1d", "#afff9f"⟩,
   ⟨"#124d44", "#17a892", "#05ffda"⟩,
   ⟨"#004d8a", "#0c93ff", "#8ee1ff"⟩,
   ⟨"#3d00b0", "#6311ff", "#b28cff"⟩,
   ⟨"#ad0091", "#ff35db", "#ff99ec"⟩,
   ⟨"#8c0000", "#e80d0d", "#ff9898"⟩]

/-- The palette lookup tierFireColor[tier - 1]; an out-of-range access
yields none where the JavaScript array access yields undefined. -/
def getTieredFireColor (tier : ℤ) : Option TieredFireColor :=
  if tier - 1 < 0 then none else tierFireColor.get? (tier - 1).toNat

/-! ## BezierFire geometry (src/render/gasfire/bezierfire.ts) -/

/-- A planar point. -/
structure Pt where
  x : ℚ
  y : ℚ
deriving DecidableEq

/-- An axis-aligned rectangle given by two corners. -/
structure Rect where
  x1 : ℚ
  y1 : ℚ
  x2 : ℚ
  y2 : ℚ
deriving DecidableEq

/-- One cubic Bezier segment: two control points and an endpoint. -/
structure BezierLine where
  cp1x : ℚ
  cp1y : ℚ
  cp2x : ℚ
  cp2y : ℚ
  x : ℚ
  y : ℚ
deriving DecidableEq

/-- A fire silhouette: frame, start point, segments and base anchor. -/
structure BezierFire where
  frame : Rect
  start : Pt
  points : List BezierLine
  fireBase : Pt
deriving DecidableEq

/-- Cubic Bezier evaluation with the Bernstein basis, as in getBezierPoint. -/
def getBezierPoint (t : ℚ) (p0 cp1 cp2 p3 : Pt) : Pt :=
  let u := 1 - t
  let tt := t * t
  let uu := u * u
  let uuu := uu * u
  let ttt := tt * t
  ⟨p0.x * uuu + 3 * cp1.x * uu * t + 3 * cp2.x * u * tt + p3.x * ttt,
   p0.y * uuu + 3 * cp1.y * uu * t + 3 * cp2.y * u * tt + p3.y * ttt⟩

/-- Sample points of every segment: for segment i the start point is the
shape start for i = 0 and the endpoint of segment i-1 otherwise; parameters
are t = j / (samples - 1) for j = 0 .. samples - 1. -/
def sampleSegments (samples : ℕ) : Pt → List BezierLine → List Pt
  | _, [] => []
  | p0, p1 :: rest =>
      ((List.range samples).map fun j =>
        getBezierPoint ((j : ℚ) / ((samples : ℚ) - 1)) p0
          ⟨p1.cp1x, p1.cp1y⟩ ⟨p1.cp2x, p1.cp2y⟩ ⟨p1.x, p1.y⟩)
      ++ sampleSegments samples ⟨p1.x, p1.y⟩ rest

/-- calculateApproximateCentroid: mean of the sampled points over all
segments, default samples = 10.  The division is by points.length * samples
(zero only for a shape with no segments, which the pipeline never builds). -/
def calculateApproximateCentroid (fire : BezierFire) (samples : ℕ := 10) : Pt :=
  let pts := sampleSegments samples fire.start fire.points
  ⟨(pts.map Pt.x).sum / ((fire.points.length * samples : ℕ) : ℚ),
   (pts.map Pt.y).sum / ((fire.points.length * samples : ℕ) : ℚ)⟩

/-- Scaling about a center point, applied to frame, start, segments, base. -/
def BezierFire.scale (f : BezierFire) (centerX centerY scaleFactor : ℚ) : BezierFire :=
  ⟨⟨centerX + (f.frame.x1 - centerX) * scaleFactor,
    centerY + (f.frame.y1 - centerY) * scaleFactor,
    centerX + (f.frame.x2 - centerX) * scaleFactor,
    centerY + (f.frame.y2 - centerY) * scaleFactor⟩,
   ⟨centerX + (f.start.x - centerX) * scaleFactor,
    centerY + (f.start.y - centerY) * scaleFactor⟩,
   f.points.map fun p =>
     ⟨centerX + (p.cp1x - centerX) * scaleFactor,
      centerY + (p.cp1y - centerY) * scaleFactor,
      centerX + (p.cp2x - centerX) * scaleFactor,
      centerY + (p.cp2y - centerY) * scaleFactor,
      centerX + (p.x - centerX) * scaleFactor,
      centerY + (p.y - centerY) * scaleFactor⟩,
   ⟨centerX + (f.fireBase.x - centerX) * scaleFactor,
    centerY + (f.fireBase.y - centerY) * scaleFactor⟩⟩

/-- Translation by an offset, applied to frame, start, segments, base. -/
def BezierFire.move (f : BezierFire) (offsetX offsetY : ℚ) : BezierFire :=
  ⟨⟨f.frame.x1 + offsetX, f.frame.y1 + offsetY,
    f.frame.x2 + offsetX, f.frame.y2 + offsetY⟩,
   ⟨f.start.x + offsetX, f.start.y + offsetY⟩,
   f.points.map fun p =>
     ⟨p.cp1x + offsetX, p.cp1y + offsetY, p.cp2x + offsetX, p.cp2y + offsetY,
      p.x + offsetX, p.y + offsetY⟩,
   ⟨f.fireBase.x + offsetX, f.fireBase.y + offsetY⟩⟩

/-! ## Draw calls (src/render/gasfire/render.ts) -/

/-- One call against the 2D canvas context, as a pure log entry. -/
inductive DrawOp where
  | beginPath : DrawOp
  | moveTo (x y : ℚ) : DrawOp
  | bezierCurveTo (cp1x cp1y cp2x cp2y x y : ℚ) : DrawOp
  | closePath : DrawOp
  | setFillStyle (color : String) : DrawOp
  | fill : DrawOp
deriving DecidableEq

/-- drawBezierFire: begin a path at the start point, emit one cubic curve
per segment, close, set the fill style and fill. -/
def drawBezierFire (bezierFire : BezierFire) (fillColor : String) : List DrawOp :=
  [DrawOp.beginPath, DrawOp.moveTo bezierFire.start.x bezierFire.start.y]
  ++ bezierFire.points.map (fun p => DrawOp.bezierCurveTo p.cp1x p.cp1y p.cp2x p.cp2y p.x p.y)
  ++ [DrawOp.closePath, DrawOp.setFillStyle fillColor, DrawOp.fill]

/-- Placeholder fire used only to totalize list indexing; the JavaScript
source would crash on the configurations where it is ever selected. -/
def emptyFire : BezierFire := ⟨⟨0, 0, 0, 0⟩, ⟨0, 0⟩, [], ⟨0, 0⟩⟩

/-- The seed-shape library bezierFireSeeds (exactly one hand-authored shape). -/
def bezierFireSeeds : List BezierFire :=
  [⟨⟨120, 70, 392, 512⟩,
    ⟨134, 391⟩,
    [⟨173, 530, 344, 530, 383, 391⟩,
     ⟨406, 260, 282, 221, 258, 70⟩,
     ⟨234, 221, 110, 260, 134, 391⟩],
    ⟨258, 406⟩⟩]

/-- drawBezierFrame: five passes over the instance list.  In every pass each
fire is first shifted horizontally so its base x matches the base x of the
first instance, then scaled and filled: white at 1.0 and black at 0.93 and
the outer palette color at 0.84, each about the approximate centroid; the
middle palette color at 0.55 about the own base point; finally the first
instance alone at 0.3 about its base in the inner palette color. -/
def drawBezierFrame (fireColor : TieredFireColor) (bezierFires : List BezierFire) : List DrawOp :=
  let baseFire := bezierFires.headD emptyFire
  ((bezierFires.map fun fire =>
      let fire := fire.move (baseFire.fireBase.x - fire.fireBase.x) 0
      let c := calculateApproximateCentroid fire
      drawBezierFire (fire.scale c.x c.y 1) "#ffffff").flatten)
  ++ ((bezierFires.map fun fire =>
      let fire := fire.move (baseFire.fireBase.x - fire.fireBase.x) 0
      let c := calculateApproximateCentroid fire
      drawBezierFire (fire.scale c.x c.y (93/100)) "#000000").flatten)
  ++ ((bezierFires.map fun fire =>
      let fire := fire.move (baseFire.fireBase.x - fire.fireBase.x) 0
      let c := calculateApproximateCentroid fire
      drawBezierFire (fire.scale c.x c.y (84/100)) fireColor.outer).flatten)
  ++ ((bezierFires.map fun fire =>
      let fire := fire.move (baseFire.fireBase.x - fire.fireBase.x) 0
      drawBezierFire (fire.scale fire.fireBase.x fire.fireBase.y (55/100)) fireColor.middle).flatten)
  ++ drawBezierFire (baseFire.scale baseFire.fireBase.x baseFire.fireBase.y (3/10)) fireColor.inner

/-! ## Projective transform solver (the second half of render.ts)

gl-matrix stores a mat4 column-major: fromValues(a0, ..., a15) places a_i at
flat index i, and the matrix entry at row r, column c is flat[4c + r].  The
model uses `Matrix (Fin 4) (Fin 4) ℚ` with that convention, so the source
expression tx[4p + q] is written (tx q p) below. -/

/-- The degeneracy substitution Z: a coordinate 0 becomes 0.5 before solving. -/
def Zadj (v : ℚ) : ℚ := if v = 0 then 1/2 else v

/-- Correspondence matrix of one coordinate system: fromValues fills column c
with (X c, Y c, -X c * v c, -Y c * v c) for corner c. -/
def corrMat (X Y v : Fin 4 → ℚ) : Matrix (Fin 4) (Fin 4) ℚ :=
  Matrix.of fun r c => ![X c, Y c, -(X c * v c), -(Y c * v c)] r

/-- The x-mapping system matrix built by calcProjectionMatrix after the Z
substitution. -/
def txMatOf (src dest : Fin 4 → ℚ × ℚ) : Matrix (Fin 4) (Fin 4) ℚ :=
  corrMat (fun c => Zadj (src c).1) (fun c => Zadj (src c).2) (fun c => Zadj (dest c).1)

/-- The y-mapping system matrix built by calcProjectionMatrix after the Z
substitution. -/
def tyMatOf (src dest : Fin 4 → ℚ × ℚ) : Matrix (Fin 4) (Fin 4) ℚ :=
  corrMat (fun c => Zadj (src c).1) (fun c => Zadj (src c).2) (fun c => Zadj (dest c).2)

/-- Determinant computed by mat4.invert from six 2x2 minors of the top two
flat columns and six of the bottom two. -/
def det4 (m : Matrix (Fin 4) (Fin 4) ℚ) : ℚ :=
  let b00 := m 0 0 * m 1 1 - m 1 0 * m 0 1
  let b01 := m 0 0 * m 2 1 - m 2 0 * m 0 1
  let b02 := m 0 0 * m 3 1 - m 3 0 * m 0 1
  let b03 := m 1 0 * m 2 1 - m 2 0 * m 1 1
  let b04 := m 1 0 * m 3 1 - m 3 0 * m 1 1
  let b05 := m 2 0 * m 3 1 - m 3 0 * m 2 1
  let b06 := m 0 2 * m 1 3 - m 1 2 * m 0 3
  let b07 := m 0 2 * m 2 3 - m 2 2 * m 0 3
  let b08 := m 0 2 * m 3 3 - m 3 2 * m 0 3
  let b09 := m 1 2 * m 2 3 - m 2 2 * m 1 3
  let b10 := m 1 2 * m 3 3 - m 3 2 * m 1 3
  let b11 := m 2 2 * m 3 3 - m 3 2 * m 2 3
  b00 * b11 - b01 * b10 + b02 * b09 + b03 * b08 - b04 * b07 + b05 * b06

/-- Cofactor inverse computed by mat4.invert (valid when det4 is nonzero). -/
def inv4core (m : Matrix (Fin 4) (Fin 4) ℚ) : Matrix (Fin 4) (Fin 4) ℚ :=
  let b00 := m 0 0 * m 1 1 - m 1 0 * m 0 1
  let b01 := m 0 0 * m 2 1 - m 2 0 * m 0 1
  let b02 := m 0 0 * m 3 1 - m 3 0 * m 0 1
  let b03 := m 1 0 * m 2 1 - m 2 0 * m 1 1
  let b04 := m 1 0 * m 3 1 - m 3 0 * m 1 1
  let b05 := m 2 0 * m 3 1 - m 3 0 * m 2 1
  let b06 := m 0 2 * m 1 3 - m 1 2 * m 0 3
  let b07 := m 0 2 * m 2 3 - m 2 2 * m 0 3
  let b08 := m 0 2 * m 3 3 - m 3 2 * m 0 3
  let b09 := m 1 2 * m 2 3 - m 2 2 * m 1 3
  let b10 := m 1 2 * m 3 3 - m 3 2 * m 1 3
  let b11 := m 2 2 * m 3 3 - m 3 2 * m 2 3
  let det := b00 * b11 - b01 * b10 + b02 * b09 + b03 * b08 - b04 * b07 + b05 * b06
  Matrix.of fun r c =>
    ![![m 1 1 * b11 - m 2 1 * b10 + m 3 1 * b09,
       m 2 1 * b08 - m 0 1 * b11 - m 3 1 * b07,
       m 0 1 * b10 - m 1 1 * b08 + m 3 1 * b06,
       m 1 1 * b07 - m 0 1 * b09 - m 2 1 * b06],
      ![m 2 0 * b10 - m 1 0 * b11 - m 3 0 * b09,
       m 0 0 * b11 - m 2 0 * b08 + m 3 0 * b07,
       m 1 0 * b08 - m 0 0 * b10 - m 3 0 * b06,
       m 0 0 * b09 - m 1 0 * b07 + m 2 0 * b06],
      ![m 1 3 * b05 - m 2 3 * b04 + m 3 3 * b03,
       m 2 3 * b02 - m 0 3 * b05 - m 3 3 * b01,
       m 0 3 * b04 - m 1 3 * b02 + m 3 3 * b00,
       m 1 3 * b01 - m 0 3 * b03 - m 2 3 * b00],
      ![m 2 2 * b04 - m 1 2 * b05 - m 3 2 * b03,
       m 0 2 * b05 - m 2 2 * b02 + m 3 2 * b01,
       m 1 2 * b02 - m 0 2 * b04 - m 3 2 * b00,
       m 0 2 * b03 - m 1 2 * b01 + m 2 2 * b00]] r c / det

/-- mat4.invert with the caller behavior of the source: on a zero
determinant gl-matrix returns null without writing, and since the source
ignores the return value the original matrix remains in use. -/
def invert4 (m : Matrix (Fin 4) (Fin 4) ℚ) : Matrix (Fin 4) (Fin 4) ℚ :=
  if det4 m = 0 then m else inv4core m

/-- Combination tx[0 + j] * v1 + tx[4 + j] * v2 + ... read column-major: the
source values kx1..kx4 are kvec tx v 0..3 with v the dest coordinates, and
kc1..kc4 are kvec tx 1. -/
def kvec (N : Matrix (Fin 4) (Fin 4) ℚ) (v : Fin 4 → ℚ) (j : Fin 4) : ℚ :=
  N 0 j * v 0 + N 1 j * v 1 + N 2 j * v 2 + N 3 j * v 3

/-- The source values kx1..kx4 (written kxOf src dest 0..3). -/
def kxOf (src dest : Fin 4 → ℚ × ℚ) (j : Fin 4) : ℚ :=
  kvec (invert4 (txMatOf src dest)) (fun c => Zadj (dest c).1) j

/-- The source values kc1..kc4. -/
def kcOf (src dest : Fin 4 → ℚ × ℚ) (j : Fin 4) : ℚ :=
  kvec (invert4 (txMatOf src dest)) (fun _ => 1) j

/-- The source values ky1..ky4. -/
def kyOf (src dest : Fin 4 → ℚ × ℚ) (j : Fin 4) : ℚ :=
  kvec (invert4 (tyMatOf src dest)) (fun c => Zadj (dest c).2) j

/-- The source values kf1..kf4. -/
def kfOf (src dest : Fin 4 → ℚ × ℚ) (j : Fin 4) : ℚ :=
  kvec (invert4 (tyMatOf src dest)) (fun _ => 1) j

/-- The translation-term determinant det_1 before the epsilon substitution
and before taking the reciprocal: kc3 * (-kf4) - (-kf3) * kc4. -/
def det1preOf (src dest : Fin 4 → ℚ × ℚ) : ℚ :=
  kcOf src dest 2 * (-(kfOf src dest 3)) - (-(kfOf src dest 2)) * kcOf src dest 3

/-- The reciprocal taken by the source after substituting 0.0001 for an
exactly-zero det_1. -/
def rcpOf (src dest : Fin 4 → ℚ × ℚ) : ℚ :=
  1 / (if det1preOf src dest = 0 then 1/10000 else det1preOf src dest)

/-- The translation term C of the x mapping. -/
def Cof (src dest : Fin 4 → ℚ × ℚ) : ℚ :=
  (-(kfOf src dest 3) * rcpOf src dest) * (kxOf src dest 2 - kyOf src dest 2)
    + (kfOf src dest 2 * rcpOf src dest) * (kxOf src dest 3 - kyOf src dest 3)

/-- The translation term F of the y mapping. -/
def Fof (src dest : Fin 4 → ℚ × ℚ) : ℚ :=
  (-(kcOf src dest 3) * rcpOf src dest) * (kxOf src dest 2 - kyOf src dest 2)
    + (kcOf src dest 2 * rcpOf src dest) * (kxOf src dest 3 - kyOf src dest 3)

/-- calcProjectionMatrix: solve the two 4x4 systems, recover the translation
terms C and F through the 2x2 system with determinant det_1 (epsilon 0.0001
substituted when det_1 is exactly 0), and assemble the nine parameters
param[0..8] in the order of the source. -/
def calcProjectionMatrix (src dest : Fin 4 → ℚ × ℚ) : Fin 9 → ℚ :=
  ![kxOf src dest 0 - Cof src dest * kcOf src dest 0,
    kxOf src dest 1 - Cof src dest * kcOf src dest 1,
    Cof src dest,
    kyOf src dest 0 - Fof src dest * kfOf src dest 0,
    kyOf src dest 1 - Fof src dest * kfOf src dest 1,
    Fof src dest,
    kxOf src dest 2 - Cof src dest * kcOf src dest 2,
    kxOf src dest 3 - Cof src dest * kcOf src dest 3,
    1]

/-- A source/destination quadrilateral pair. -/
structure TransformTemplate where
  src : Fin 4 → ℚ × ℚ
  dest : Fin 4 → ℚ × ℚ

/-- A solved projective transform: the template and nine coefficients. -/
structure ProjectiveTransform where
  template : TransformTemplate
  mat : Fin 9 → ℚ

/-- Point mapping x = (x m0 + y m1 + m2) / z, y = (x m3 + y m4 + m5) / z
with z = x m6 + y m7 + m8.  In this total model a zero z yields 0 where
JavaScript would produce Infinity or NaN. -/
def ProjectiveTransform.transform (p : ProjectiveTransform) (q : ℚ × ℚ) : ℚ × ℚ :=
  let z := q.1 * p.mat 6 + q.2 * p.mat 7 + p.mat 8
  ((q.1 * p.mat 0 + q.2 * p.mat 1 + p.mat 2) / z,
   (q.1 * p.mat 3 + q.2 * p.mat 4 + p.mat 5) / z)

/-- transformBezier maps start, base and every segment point through the
transform; the frame is copied unchanged from the input shape. -/
def ProjectiveTransform.transformBezier (p : ProjectiveTransform) (bezierLine : BezierFire) : BezierFire :=
  let s := p.transform (bezierLine.start.x, bezierLine.start.y)
  let fb := p.transform (bezierLine.fireBase.x, bezierLine.fireBase.y)
  ⟨bezierLine.frame,
   ⟨s.1, s.2⟩,
   bezierLine.points.map fun pt =>
     let c1 := p.transform (pt.cp1x, pt.cp1y)
     let c2 := p.transform (pt.cp2x, pt.cp2y)
     let e := p.transform (pt.x, pt.y)
     ⟨c1.1, c1.2, c2.1, c2.2, e.1, e.2⟩,
   ⟨fb.1, fb.2⟩⟩

/-- createTransformBy solves the projection matrix for a template. -/
def createTransformBy (template : TransformTemplate) : ProjectiveTransform :=
  ⟨template, calcProjectionMatrix template.src template.dest⟩

/-- Projective divisor z at the Z-adjusted source corner c of a solved
template, the denominator used when that corner is mapped. -/
def zdenomOf (src dest : Fin 4 → ℚ × ℚ) (c : Fin 4) : ℚ :=
  Zadj (src c).1 * calcProjectionMatrix src dest 6
    + Zadj (src c).2 * calcProjectionMatrix src dest 7
    + calcProjectionMatrix src dest 8

/-! ## Placement generator (src/render/gasfire/generator.ts)

The transcendental functions Math.PI, Math.atan, Math.cos and Math.sin have
no exact rational values; they are abstracted as an operations record, and
every theorem about the generator quantifies over all interpretations. -/

/-- Abstract interpretations of the transcendental Math functions. -/
structure TrigOps where
  pi : ℚ
  atan : ℚ → ℚ
  cos : ℚ → ℚ
  sin : ℚ → ℚ

/-- Degree-to-radian conversion of the generator. -/
def degreeToRad (ops : TrigOps) (degree : ℚ) : ℚ := degree * ops.pi / 180

/-- determineCenterPoint: one nextIntBet draw per coordinate over the bar
range-of-motion rectangle. -/
def determineCenterPoint (s : XorShift) (barRangeOfMotion : Rect) : Pt × XorShift :=
  let (midpointX, s) := s.nextIntBet barRangeOfMotion.x1 barRangeOfMotion.x2
  let (midpointY, s) := s.nextIntBet barRangeOfMotion.y1 barRangeOfMotion.y2
  (⟨midpointX, midpointY⟩, s)

/-- calcBarAngleRange: three arctangent cases on the horizontal position of
the midpoint relative to the seed frame, then both ends shrunk inward by 30
degrees.  The slopes divide by midpointX - frame.x1 and midpointX - frame.x2;
in the middle branch either difference can be exactly 0 (JavaScript then
divides by zero, producing an infinite slope). -/
def calcBarAngleRange (ops : TrigOps) (seed : BezierFire) (midpointX midpointY : ℚ) : ℚ × ℚ :=
  let p :=
    if midpointX < seed.frame.x1 then
      (-(ops.pi - ops.atan ((midpointY - seed.frame.y2) / (midpointX - seed.frame.x1))),
       ops.atan ((midpointY - seed.frame.y2) / (midpointX - seed.frame.x2)))
    else if midpointX ≥ seed.frame.x1 ∧ midpointX ≤ seed.frame.x2 then
      (ops.atan ((midpointY - seed.frame.y2) / (midpointX - seed.frame.x1)),
       ops.atan ((midpointY - seed.frame.y2) / (midpointX - seed.frame.x2)))
    else
      (ops.atan ((midpointY - seed.frame.y2) / (midpointX - seed.frame.x1)),
       ops.pi + ops.atan ((midpointY - seed.frame.y2) / (midpointX - seed.frame.x2)))
  let angleThreshold : ℚ := 30
  (p.1 + degreeToRad ops angleThreshold, p.2 - degreeToRad ops angleThreshold)

/-- The two slope denominators of calcBarAngleRange (identical in all three
branches). -/
def slopeDenominators (seed : BezierFire) (midpointX : ℚ) : List ℚ :=
  [midpointX - seed.frame.x1, midpointX - seed.frame.x2]

/-- determineBarAngleRad: draw lr in [0, 1), draw an angular offset within
the range width in degrees, and add 180 degrees when lr equals 1. -/
def determineBarAngleRad (ops : TrigOps) (s : XorShift) (startAngle endAngle : ℚ) : ℚ × XorShift :=
  let (lr, s) := s.nextIntBet 0 1
  let angleWidth := (endAngle - startAngle) * 180 / ops.pi
  let (angleMoveDeg, s) := s.nextIntBet 0 angleWidth
  let angleMove := angleMoveDeg * ops.pi / 180
  let angleRad := startAngle + angleMove
  if lr = 1 then (angleRad + ops.pi, s) else (angleRad, s)

/-- Rotation of a point about a center by an angle. -/
def rotatePoint (ops : TrigOps) (centerX centerY : ℚ) (point : Pt) (radian : ℚ) : Pt :=
  let cosTheta := ops.cos radian
  let sinTheta := ops.sin radian
  ⟨centerX + (point.x - centerX) * cosTheta - (point.y - centerY) * sinTheta,
   centerY + (point.x - centerX) * sinTheta + (point.y - centerY) * cosTheta⟩

/-- Intermediate values of nextTransform up to the bar center choice. -/
structure BarData where
  barLength : ℚ
  radius : ℚ
  barRangeOfMotion : Rect
  midpoint : Pt
deriving DecidableEq

/-- The prefix of nextTransform that consumes generator draws with rational
bounds only: bar length in [51, frameWidth) floored to an even number, the
range-of-motion rectangle {x1 = radius, y1 = radius,
x2 = canvasWidth - radius, y2 = frame.y1 + frameHeight / 2}, and the center
point drawn inside it. -/
def nextTransformData (s : XorShift) (seed : BezierFire) (canvasWidth : ℚ) : BarData × XorShift :=
  let minWidth : ℚ := 51
  let frameWidth := seed.frame.x2 - seed.frame.x1
  let frameHeight := seed.frame.y2 - seed.frame.y1
  let (blDraw, s) := s.nextIntBet minWidth frameWidth
  let barLength := jsFloor (blDraw / 2) * 2
  let radius := barLength / 2
  let barRangeOfMotion : Rect :=
    ⟨radius, radius, canvasWidth - radius, seed.frame.y1 + frameHeight / 2⟩
  let (mid, s) := determineCenterPoint s barRangeOfMotion
  (⟨barLength, radius, barRangeOfMotion, mid⟩, s)

/-- nextTransform: bar data, angle range, bar angle, the two rotated bar
endpoints, and the solved projective transform from the seed frame corners
to the bar quadrilateral (the two bottom frame corners are kept). -/
def nextTransform (ops : TrigOps) (s : XorShift) (seed : BezierFire) (canvasWidth : ℚ) :
    ProjectiveTransform × XorShift :=
  let (d, s) := nextTransformData s seed canvasWidth
  let angles := calcBarAngleRange ops seed d.midpoint.x d.midpoint.y
  let (barAngleRad, s) := determineBarAngleRad ops s angles.1 angles.2
  let baseLeftTopPoint : Pt := ⟨d.midpoint.x - d.radius, d.midpoint.y⟩
  let baseRightTopPoint : Pt := ⟨d.midpoint.x + d.radius, d.midpoint.y⟩
  let p1 := rotatePoint ops d.midpoint.x d.midpoint.y baseLeftTopPoint barAngleRad
  let p2 := rotatePoint ops d.midpoint.x d.midpoint.y baseRightTopPoint barAngleRad
  (createTransformBy
    ⟨![(seed.frame.x1, seed.frame.y1), (seed.frame.x2, seed.frame.y1),
       (seed.frame.x2, seed.frame.y2), (seed.frame.x1, seed.frame.y2)],
      ![(p1.x, p1.y), (p2.x, p2.y),
       (seed.frame.x2, seed.frame.y2), (seed.frame.x1, seed.frame.y2)]⟩, s)

/-! ## Composition orchestrator (renderImage, first half of render.ts) -/

/-- renderImage as a pure function from its inputs to the draw-call log.
The canvas context is the log; height is accepted but never read by the
source.  The JavaScript loop for (i = 0; i < fireNum; i++) iterates
ceil(fireNum) times for a positive bound. -/
def renderImage (ops : TrigOps) (width height : ℚ) (address : String) (gasUsed : ℤ) : List DrawOp :=
  let s := getDeterministicRandomBy address
  let (fireNum, s) := s.nextIntBet 2 4
  let n := (Int.ceil fireNum).toNat
  let state := (List.range n).foldl
    (fun (acc : List BezierFire × XorShift) i =>
      let (fires, s) := acc
      let (seedIdx, s) := s.nextIntBet 0 ((bezierFireSeeds.length : ℚ) - 1)
      let fire := bezierFireSeeds.getD (Int.toNat ⌊seedIdx⌋) emptyFire
      if i > 0 then
        let (projection, s) := nextTransform ops s fire width
        (fires ++ [projection.transformBezier fire], s)
      else
        (fires ++ [fire], s))
    ([], s)
  let tier := checkTierOf gasUsed
  let tieredFireColor := (getTieredFireColor tier).getD ⟨"", "", ""⟩
  drawBezierFrame tieredFireColor state.1

/-- The bar data of the first placement performed by renderImage (the
iteration i = 1): the draws are the instance count, the seed index draws of
iterations 0 and 1 (which consume no state because the library has exactly
one entry), then the bar of nextTransform for the shape chosen at i = 1. -/
def renderFirstPlacementData (address : String) (width : ℚ) : BarData × XorShift :=
  let s := getDeterministicRandomBy address
  let (_fireNum, s) := s.nextIntBet 2 4
  let (_idx0, s) := s.nextIntBet 0 ((bezierFireSeeds.length : ℚ) - 1)
  let (idx1, s) := s.nextIntBet 0 ((bezierFireSeeds.length : ℚ) - 1)
  let fire := bezierFireSeeds.getD (Int.toNat ⌊idx1⌋) emptyFire
  nextTransformData s fire width

/-! ## Arithmetic facts about the JavaScript remainder model -/

theorem jsTrunc_of_nonneg {q : ℚ} (h : 0 ≤ q) : jsTrunc q = ⌊q⌋ := by
  simp [jsTrunc, h]

theorem floor_intCast_div {a b : ℤ} (hb : 0 < b) : ⌊(a : ℚ) / (b : ℚ)⌋ = a / b := by
  have hbn : ((b.toNat : ℕ) : ℤ) = b := Int.toNat_of_nonneg hb.le
  calc ⌊(a : ℚ) / (b : ℚ)⌋ = ⌊(a : ℚ) / ((b.toNat : ℕ) : ℚ)⌋ := by
        norm_cast; rw [hbn]
    _ = a / ((b.toNat : ℕ) : ℤ) := Rat.floor_intCast_div_natCast a b.toNat
    _ = a / b := by rw [hbn]

theorem jsMod_intCast {a b : ℤ} (ha : 0 ≤ a) (hb : 0 < b) :
    jsMod (a : ℚ) (b : ℚ) = ((a % b : ℤ) : ℚ) := by
  have hq : (0 : ℚ) ≤ (a : ℚ) / (b : ℚ) :=
    div_nonneg (by exact_mod_cast ha) (by exact_mod_cast hb.le)
  rw [jsMod, jsTrunc_of_nonneg hq, floor_intCast_div hb, Int.emod_def]
  push_cast
  ring

theorem jsMod_nonneg_lt {a b : ℚ} (ha : 0 ≤ a) (hb : 0 < b) :
    0 ≤ jsMod a b ∧ jsMod a b < b := by
  have hq : (0 : ℚ) ≤ a / b := div_nonneg ha hb.le
  have hcancel : a / b * b = a := div_mul_cancel₀ a hb.ne'
  have h1 : (⌊a / b⌋ : ℚ) ≤ a / b := Int.floor_le _
  have h2 : a / b < (⌊a / b⌋ : ℚ) + 1 := Int.lt_floor_add_one _
  rw [jsMod, jsTrunc_of_nonneg hq]
  constructor
  · nlinarith
  · nlinarith

theorem nextIntBet_of_ge (s : XorShift) {lo hi : ℚ} (h : hi ≤ lo) :
    s.nextIntBet lo hi = (0, s) := by
  simp [XorShift.nextIntBet, sub_nonpos.2 h]

theorem nextIntBet_of_lt (s : XorShift) {lo hi : ℚ} (h : lo < hi) :
    s.nextIntBet lo hi = (lo + jsMod |((s.nextInt.1 : ℤ) : ℚ)| (hi - lo), s.nextInt.2) := by
  rw [XorShift.nextIntBet, if_neg (by linarith)]

theorem nextIntBet_bounds (s : XorShift) {lo hi : ℚ} (h : lo < hi) :
    lo ≤ (s.nextIntBet lo hi).1 ∧ (s.nextIntBet lo hi).1 < hi := by
  rw [nextIntBet_of_lt s h]
  obtain ⟨h1, h2⟩ := jsMod_nonneg_lt (abs_nonneg ((s.nextInt.1 : ℚ))) (by linarith : (0:ℚ) < hi - lo)
  constructor
  · simpa using by linarith
  · simpa using by linarith

/-! ## C6: range contract of nextIntBet -/

/-- C6.  For every generator state and all integers lo < hi, nextIntBet
returns exactly lo + (abs(next()) mod (hi - lo)), a value in [lo, hi); for
hi <= lo it returns exactly 0.  The model takes abs on ℤ, so the most
negative 32-bit word has absolute value 2^31 exactly, as Math.abs gives on
doubles. -/
theorem nextIntBet_spec (s : XorShift) (lo hi : ℤ) :
    (hi ≤ lo → (s.nextIntBet (lo : ℚ) (hi : ℚ)).1 = 0) ∧
    (lo < hi →
      (s.nextIntBet (lo : ℚ) (hi : ℚ)).1 = ((lo + |s.nextInt.1| % (hi - lo) : ℤ) : ℚ) ∧
      (lo : ℚ) ≤ (s.nextIntBet (lo : ℚ) (hi : ℚ)).1 ∧
      (s.nextIntBet (lo : ℚ) (hi : ℚ)).1 < (hi : ℚ)) := by
  constructor
  · intro h
    rw [nextIntBet_of_ge s (by exact_mod_cast h)]
  · intro h
    have hq : (lo : ℚ) < (hi : ℚ) := by exact_mod_cast h
    refine ⟨?_, nextIntBet_bounds s hq⟩
    rw [nextIntBet_of_lt s hq]
    have habs : |((s.nextInt.1 : ℤ) : ℚ)| = ((|s.nextInt.1| : ℤ) : ℚ) := by
      rw [Int.cast_abs]
    have hsub : (hi : ℚ) - (lo : ℚ) = ((hi - lo : ℤ) : ℚ) := by push_cast; ring
    rw [habs, hsub, jsMod_intCast (abs_nonneg _) (by omega)]
    push_cast
    ring

/-- Witness for C6 at the state (1, 2, 3, 5) with ranges [3, 10) and the
empty range from 10 down to 3. -/
theorem nextIntBet_spec_witness :
    ((XorShift.nextIntBet ⟨some 1, some 2, some 3, some 5⟩ ((3 : ℤ) : ℚ) ((10 : ℤ) : ℚ)).1 =
      (((3 : ℤ) + |(XorShift.nextInt ⟨some 1, some 2, some 3, some 5⟩).1| % ((10 : ℤ) - 3) : ℤ) : ℚ) ∧
      (((3 : ℤ) : ℚ)) ≤ (XorShift.nextIntBet ⟨some 1, some 2, some 3, some 5⟩ ((3 : ℤ) : ℚ) ((10 : ℤ) : ℚ)).1 ∧
      (XorShift.nextIntBet ⟨some 1, some 2, some 3, some 5⟩ ((3 : ℤ) : ℚ) ((10 : ℤ) : ℚ)).1 < (((10 : ℤ) : ℚ))) ∧
    (XorShift.nextIntBet ⟨some 1, some 2, some 3, some 5⟩ ((10 : ℤ) : ℚ) ((3 : ℤ) : ℚ)).1 = 0 :=
  ⟨(nextIntBet_spec ⟨some 1, some 2, some 3, some 5⟩ 3 10).2 (by decide),
   (nextIntBet_spec ⟨some 1, some 2, some 3, some 5⟩ 10 3).1 (by decide)⟩

/-! ## C2: the instance count drawn by renderImage -/

/-- The instance count draw of renderImage: nextIntBet(2, 4) against the
generator seeded from the identifier. -/
def fireNumOf (s : XorShift) : ℚ := (s.nextIntBet 2 4).1

theorem fireNumOf_eq (s : XorShift) :
    fireNumOf s = 2 + ((|s.nextInt.1| % 2 : ℤ) : ℚ) := by
  rw [fireNumOf, nextIntBet_of_lt s (by norm_num : (2:ℚ) < 4)]
  have habs : |((s.nextInt.1 : ℤ) : ℚ)| = ((|s.nextInt.1| : ℤ) : ℚ) := by
    rw [Int.cast_abs]
  have h42 : (4 : ℚ) - 2 = ((2 : ℤ) : ℚ) := by norm_num
  rw [habs, h42, jsMod_intCast (abs_nonneg _) (by omega)]

/-- C2 counterexample.  The claim asserts the count 4 is attained for some
generator state; in fact nextIntBet(2, 4) ranges over the half-open
interval [2, 4), so no state yields 4. -/
theorem fireNumOf_never_four : ¬ ∃ s : XorShift, fireNumOf s = 4 := by
  rintro ⟨s, hs⟩
  rw [fireNumOf_eq s] at hs
  have h2 : (0 : ℤ) ≤ |s.nextInt.1| % 2 := Int.emod_nonneg _ (by omega)
  have h3 : |s.nextInt.1| % 2 < 2 := Int.emod_lt_of_pos _ (by omega)
  have : ((|s.nextInt.1| % 2 : ℤ) : ℚ) = 2 := by linarith
  have : (|s.nextInt.1| % 2 : ℤ) = 2 := by exact_mod_cast this
  omega

/-- C2 amended.  The instance count always lies in {2, 3}, and both values
are attained for some generator state. -/
theorem fireNumOf_two_or_three :
    (∀ s : XorShift, fireNumOf s = 2 ∨ fireNumOf s = 3) ∧
    (∃ s : XorShift, fireNumOf s = 2) ∧
    (∃ s : XorShift, fireNumOf s = 3) := by
  refine ⟨fun s => ?_,
    ⟨⟨some 0, some 0, some 0, some 2⟩, by
      rw [fireNumOf_eq]
      have h : (|(XorShift.nextInt ⟨some 0, some 0, some 0, some 2⟩).1| % 2 : ℤ) = 0 := by decide
      rw [h]; norm_num⟩,
    ⟨⟨some 0, some 0, some 0, some 1⟩, by
      rw [fireNumOf_eq]
      have h : (|(XorShift.nextInt ⟨some 0, some 0, some 0, some 1⟩).1| % 2 : ℤ) = 1 := by decide
      rw [h]; norm_num⟩⟩
  rw [fireNumOf_eq s]
  have h2 : (0 : ℤ) ≤ |s.nextInt.1| % 2 := Int.emod_nonneg _ (by omega)
  have h3 : |s.nextInt.1| % 2 < 2 := Int.emod_lt_of_pos _ (by omega)
  have h01 : (|s.nextInt.1| % 2 : ℤ) = 0 ∨ (|s.nextInt.1| % 2 : ℤ) = 1 := by omega
  rcases h01 with h | h
  · left; rw [h]; norm_num
  · right; rw [h]; norm_num

/-! ## C7: the tier lookup -/

theorem checkTierOfLoop_eq_countP (g : ℤ) :
    ∀ (l : List ℤ), l.Sorted (· ≤ ·) →
      checkTierOfLoop g l = (l.countP (fun b => decide (b ≤ g)) : ℤ)
  | [], _ => by simp [checkTierOfLoop]
  | b :: bs, h => by
    rw [checkTierOfLoop, List.countP_cons]
    by_cases hb : g < b
    · rw [if_pos hb]
      have hz : bs.countP (fun x => decide (x ≤ g)) = 0 := by
        rw [List.countP_eq_zero]
        intro a ha
        have hba := (List.sorted_cons.mp h).1 a ha
        simp only [decide_eq_true_eq]
        omega
      have hbg : ¬ (b ≤ g) := by omega
      simp [hz, hbg]
    · rw [if_neg hb]
      have ih := checkTierOfLoop_eq_countP g bs (List.sorted_cons.mp h).2
      rw [ih]
      have hbg : b ≤ g := by omega
      simp [hbg]

/-- C7.  For every non-negative counter the tier equals one plus the number
of boundaries the counter meets or exceeds, hence lies in [1, 8]; the four
named boundary examples evaluate as stated. -/
theorem checkTierOf_spec :
    (∀ g : ℤ, 0 ≤ g →
      checkTierOf g = 1 + (tierBoundaries.countP (fun b => decide (b ≤ g)) : ℤ) ∧
      1 ≤ checkTierOf g ∧ checkTierOf g ≤ 8) ∧
    checkTierOf 49999 = 1 ∧ checkTierOf 50000 = 2 ∧
    checkTierOf 50000000 = 8 ∧ checkTierOf 999999999 = 8 := by
  refine ⟨fun g _ => ?_, by decide, by decide, by decide, by decide⟩
  have hsorted : tierBoundaries.Sorted (· ≤ ·) := by
    rw [tierBoundaries]
    decide
  have heq := checkTierOfLoop_eq_countP g tierBoundaries hsorted
  have hle : tierBoundaries.countP (fun b => decide (b ≤ g)) ≤ tierBoundaries.length :=
    List.countP_le_length _
  have hlen : tierBoundaries.length = 7 := by rw [tierBoundaries]; rfl
  rw [checkTierOf, heq]
  refine ⟨by ring, by omega, by omega⟩

/-- Witness for C7 at the counter 50000. -/
theorem checkTierOf_spec_witness :
    checkTierOf 50000 = 1 + (tierBoundaries.countP (fun b => decide (b ≤ 50000)) : ℤ) ∧
    1 ≤ checkTierOf 50000 ∧ checkTierOf 50000 ≤ 8 :=
  checkTierOf_spec.1 50000 (by decide)

/-! ## C3: seeding of short identifiers -/

theorem jsSlice_eq_nil {cs : List Char} {a b : ℤ}
    (h : sliceStop cs.length b ≤ sliceStart cs.length a) : jsSlice cs a b = [] := by
  rw [jsSlice]
  apply List.drop_eq_nil_of_le
  rw [List.length_take]
  exact le_trans (min_le_left _ _) h

theorem parseIntHex_nil : parseIntHex [] = none := rfl

/-- C3 counterexample.  The claim asserts that seeding rejects (or
zero-fills) any identifier with fewer than 32 hex characters; for the
two-character identifier ab the code instead silently returns a generator
state whose first three words are NaN and whose fourth word is 0xab = 171,
neither a rejection nor a zero fill. -/
theorem getDeterministicRandomBy_short_silent :
    getDeterministicRandomBy "ab" = ⟨none, none, none, some 171⟩ ∧
    (getDeterministicRandomBy "ab").w ≠ some 0 := by
  constructor
  · decide
  · decide

/-- C3 amended.  Seeding never rejects: it is a total function, and for
every identifier shorter than 32 characters at least one resulting state
word is NaN, because at least one of the four slices is empty and parseInt
of an empty string is NaN. -/
theorem getDeterministicRandomBy_short_nan (address : String) (h : address.length < 32) :
    (getDeterministicRandomBy address).x = none ∨ (getDeterministicRandomBy address).y = none ∨
    (getDeterministicRandomBy address).z = none ∨ (getDeterministicRandomBy address).w = none := by
  have hlen : address.data.length < 32 := h
  have key : ∀ n : ℕ, n < 32 → ∃ i : ℕ, i < 4 ∧
      sliceStop n ((n : ℤ) - 8 * ((i : ℤ) + 1) + 8) ≤ sliceStart n ((n : ℤ) - 8 * ((i : ℤ) + 1)) := by
    decide
  obtain ⟨i, hi4, hcond⟩ := key address.data.length hlen
  have hchunk : addressChunk address.data i = [] := by
    rw [addressChunk]
    exact jsSlice_eq_nil hcond
  interval_cases i
  · exact Or.inr (Or.inr (Or.inr (by
      show parseIntHex (addressChunk address.data 0) = none
      rw [hchunk, parseIntHex_nil])))
  · exact Or.inr (Or.inr (Or.inl (by
      show parseIntHex (addressChunk address.data 1) = none
      rw [hchunk, parseIntHex_nil])))
  · exact Or.inr (Or.inl (by
      show parseIntHex (addressChunk address.data 2) = none
      rw [hchunk, parseIntHex_nil]))
  · exact Or.inl (by
      show parseIntHex (addressChunk address.data 3) = none
      rw [hchunk, parseIntHex_nil])

/-- Witness for the amended C3 at the identifier ab. -/
theorem getDeterministicRandomBy_short_nan_witness :
    ("ab" : String).length < 32 ∧
    ((getDeterministicRandomBy "ab").x = none ∨ (getDeterministicRandomBy "ab").y = none ∨
     (getDeterministicRandomBy "ab").z = none ∨ (getDeterministicRandomBy "ab").w = none) :=
  ⟨by decide, getDeterministicRandomBy_short_nan "ab" (by decide)⟩

/-! ## C4: the 180-degree flip of determineBarAngleRad -/

theorem nextIntBet_zero_one (s : XorShift) : s.nextIntBet 0 1 = (0, s.nextInt.2) := by
  rw [nextIntBet_of_lt s (by norm_num : (0 : ℚ) < 1)]
  have habs : |((s.nextInt.1 : ℤ) : ℚ)| = ((|s.nextInt.1| : ℤ) : ℚ) := Int.cast_abs.symm
  have h10 : (1 : ℚ) - 0 = ((1 : ℤ) : ℚ) := by norm_num
  rw [habs, h10, jsMod_intCast (abs_nonneg _) one_pos]
  simp [Int.emod_one]

/-- Comparison definition for C4, written from the description of the
intended behavior with the flip removed: the returned angle is always the
picked angle, while the state consumption is unchanged. -/
def determineBarAngleRadNoFlip (ops : TrigOps) (s : XorShift) (startAngle endAngle : ℚ) :
    ℚ × XorShift :=
  let (_lr, s) := s.nextIntBet 0 1
  let angleWidth := (endAngle - startAngle) * 180 / ops.pi
  let (angleMoveDeg, s) := s.nextIntBet 0 angleWidth
  let angleMove := angleMoveDeg * ops.pi / 180
  (startAngle + angleMove, s)

/-- C4.  The lr draw is nextIntBet(0, 1), which is always 0, so the branch
adding 180 degrees is unreachable: for every interpretation of the
transcendental functions, every generator state and every angle range the
result equals the unflipped angle. -/
theorem determineBarAngleRad_never_flips (ops : TrigOps) (s : XorShift)
    (startAngle endAngle : ℚ) :
    determineBarAngleRad ops s startAngle endAngle =
      determineBarAngleRadNoFlip ops s startAngle endAngle ∧
    (s.nextIntBet 0 1).1 = 0 := by
  have h := nextIntBet_zero_one s
  constructor
  · rw [determineBarAngleRad, determineBarAngleRadNoFlip, h]
    norm_num
  · rw [h]

/-! ## Concrete evaluation helper -/

theorem nextIntBet_eval {s s' : XorShift} {v : ℤ} {lo hi r : ℚ}
    (h : lo < hi) (hn : s.nextInt = (v, s'))
    (hr : lo + jsMod |((v : ℤ) : ℚ)| (hi - lo) = r) :
    s.nextIntBet lo hi = (r, s') := by
  rw [nextIntBet_of_lt s h, hn]
  exact congrArg (fun q => (q, s')) hr

/-! ## C5: the bar center rectangle -/

/-- The zero generator state (a valid 4-word register; every draw is 0). -/
def xsZero : XorShift := ⟨some 0, some 0, some 0, some 0⟩

/-- The generator state (0, 0, 0, 1). -/
def xsOne : XorShift := ⟨some 0, some 0, some 0, some 1⟩

/-- The single seed shape of the library. -/
def seedFire0 : BezierFire := bezierFireSeeds.getD 0 emptyFire

theorem xsZero_nextInt : xsZero.nextInt = (0, xsZero) := by decide

theorem nextTransformData_xsZero_eval :
    nextTransformData xsZero seedFire0 512 =
      (⟨50, 25, ⟨25, 25, 487, 291⟩, ⟨25, 25⟩⟩, xsZero) := by
  have e1 : xsZero.nextIntBet 51 272 = (51, xsZero) :=
    nextIntBet_eval (by norm_num) xsZero_nextInt (by norm_num [jsMod, jsTrunc])
  have e2 : xsZero.nextIntBet 25 487 = (25, xsZero) :=
    nextIntBet_eval (by norm_num) xsZero_nextInt (by norm_num [jsMod, jsTrunc])
  have e3 : xsZero.nextIntBet 25 291 = (25, xsZero) :=
    nextIntBet_eval (by norm_num) xsZero_nextInt (by norm_num [jsMod, jsTrunc])
  simp only [nextTransformData, determineCenterPoint, seedFire0, bezierFireSeeds, emptyFire,
    List.getD, List.get?, Option.getD]
  norm_num [e1, jsFloor]
  norm_num [e2, e3]

/-- C5 counterexample.  For the shipped seed shape (whose frame satisfies
x1 < x2 and y1 < y2), canvas width 512 and the all-zero generator state, the
chosen bar center has y = 25, strictly below frame.y1 = 70: the rectangle of
the code has lower y bound radius, not frame.y1. -/
theorem nextTransformData_center_below_frame :
    seedFire0.frame.x1 < seedFire0.frame.x2 ∧ seedFire0.frame.y1 < seedFire0.frame.y2 ∧
    (nextTransformData xsZero seedFire0 512).1.midpoint.y < seedFire0.frame.y1 := by
  refine ⟨by norm_num [seedFire0, bezierFireSeeds], by norm_num [seedFire0, bezierFireSeeds], ?_⟩
  rw [nextTransformData_xsZero_eval]
  norm_num [seedFire0, bezierFireSeeds]

/-- C5 amended.  For every seed shape, canvas width and generator state, the
bar center chosen in nextTransform lies inside the range-of-motion rectangle
of the code, {x1 = radius, y1 = radius, x2 = canvasWidth - radius,
y2 = frame.y1 + frameHeight / 2}, with each coordinate in the half-open
range [low, high), provided that range is nonempty. -/
theorem nextTransformData_center_in_rect (s : XorShift) (seed : BezierFire) (canvasWidth : ℚ)
    (hx : (nextTransformData s seed canvasWidth).1.barRangeOfMotion.x1 <
          (nextTransformData s seed canvasWidth).1.barRangeOfMotion.x2)
    (hy : (nextTransformData s seed canvasWidth).1.barRangeOfMotion.y1 <
          (nextTransformData s seed canvasWidth).1.barRangeOfMotion.y2) :
    (nextTransformData s seed canvasWidth).1.barRangeOfMotion.x1 ≤
      (nextTransformData s seed canvasWidth).1.midpoint.x ∧
    (nextTransformData s seed canvasWidth).1.midpoint.x <
      (nextTransformData s seed canvasWidth).1.barRangeOfMotion.x2 ∧
    (nextTransformData s seed canvasWidth).1.barRangeOfMotion.y1 ≤
      (nextTransformData s seed canvasWidth).1.midpoint.y ∧
    (nextTransformData s seed canvasWidth).1.midpoint.y <
      (nextTransformData s seed canvasWidth).1.barRangeOfMotion.y2 := by
  simp only [nextTransformData, determineCenterPoint] at *
  obtain ⟨hx1, hx2⟩ := nextIntBet_bounds _ hx
  obtain ⟨hy1, hy2⟩ := nextIntBet_bounds _ hy
  exact ⟨hx1, hx2, hy1, hy2⟩

/-- Witness for the amended C5: shipped seed, width 512, state (0, 0, 0, 1);
the rectangle is (26, 26, 486, 291) and the center is (27, 27). -/
theorem nextTransformData_center_in_rect_witness :
    ((nextTransformData xsOne seedFire0 512).1.barRangeOfMotion.x1 <
      (nextTransformData xsOne seedFire0 512).1.barRangeOfMotion.x2 ∧
     (nextTransformData xsOne seedFire0 512).1.barRangeOfMotion.y1 <
      (nextTransformData xsOne seedFire0 512).1.barRangeOfMotion.y2) ∧
    ((nextTransformData xsOne seedFire0 512).1.barRangeOfMotion.x1 ≤
      (nextTransformData xsOne seedFire0 512).1.midpoint.x ∧
     (nextTransformData xsOne seedFire0 512).1.midpoint.x <
      (nextTransformData xsOne seedFire0 512).1.barRangeOfMotion.x2 ∧
     (nextTransformData xsOne seedFire0 512).1.barRangeOfMotion.y1 ≤
      (nextTransformData xsOne seedFire0 512).1.midpoint.y ∧
     (nextTransformData xsOne seedFire0 512).1.midpoint.y <
      (nextTransformData xsOne seedFire0 512).1.barRangeOfMotion.y2) := by
  have n1 : xsOne.nextInt = (1, ⟨some 0, some 0, some 1, some 1⟩) := by decide
  have n2 : XorShift.nextInt ⟨some 0, some 0, some 1, some 1⟩ =
      (1, ⟨some 0, some 1, some 1, some 1⟩) := by decide
  have n3 : XorShift.nextInt ⟨some 0, some 1, some 1, some 1⟩ =
      (1, ⟨some 1, some 1, some 1, some 1⟩) := by decide
  have e1 : xsOne.nextIntBet 51 272 = (52, ⟨some 0, some 0, some 1, some 1⟩) :=
    nextIntBet_eval (by norm_num) n1 (by norm_num [jsMod, jsTrunc])
  have e2 : XorShift.nextIntBet ⟨some 0, some 0, some 1, some 1⟩ 26 486 =
      (27, ⟨some 0, some 1, some 1, some 1⟩) :=
    nextIntBet_eval (by norm_num) n2 (by norm_num [jsMod, jsTrunc])
  have e3 : XorShift.nextIntBet ⟨some 0, some 1, some 1, some 1⟩ 26 291 =
      (27, ⟨some 1, some 1, some 1, some 1⟩) :=
    nextIntBet_eval (by norm_num) n3 (by norm_num [jsMod, jsTrunc])
  have heval : nextTransformData xsOne seedFire0 512 =
      (⟨52, 26, ⟨26, 26, 486, 291⟩, ⟨27, 27⟩⟩, ⟨some 1, some 1, some 1, some 1⟩) := by
    simp only [nextTransformData, determineCenterPoint, seedFire0, bezierFireSeeds, emptyFire,
      List.getD, List.get?, Option.getD]
    norm_num [e1, jsFloor]
    norm_num [e2, e3]
  have hx : (nextTransformData xsOne seedFire0 512).1.barRangeOfMotion.x1 <
      (nextTransformData xsOne seedFire0 512).1.barRangeOfMotion.x2 := by
    rw [heval]; norm_num
  have hy : (nextTransformData xsOne seedFire0 512).1.barRangeOfMotion.y1 <
      (nextTransformData xsOne seedFire0 512).1.barRangeOfMotion.y2 := by
    rw [heval]; norm_num
  exact ⟨⟨hx, hy⟩, nextTransformData_center_in_rect xsOne seedFire0 512 hx hy⟩

/-! ## C10: totality of the internal computation -/

/-- A 40-hex-digit identifier whose seeded draw sequence makes the first
placement choose the bar center x exactly at frame.x1 = 120 on a 512-wide
canvas. -/
def cexAddr : String := "0x0000000047b787c1088f3fd831bfb86dc5b2e9fb"

theorem renderFirstPlacement_eval :
    renderFirstPlacementData cexAddr 512 =
      (⟨206, 103, ⟨103, 103, 409, 291⟩, ⟨120, 190⟩⟩,
       ⟨some 1052833539, some 1338015484, some (-2089755719), some (-773912803)⟩) := by
  have hseed : getDeterministicRandomBy cexAddr =
      ⟨some 1203210177, some 143605720, some 834648173, some 3316836859⟩ := by decide
  have n1 : XorShift.nextInt ⟨some 1203210177, some 143605720, some 834648173, some 3316836859⟩ =
      (1052833539, ⟨some 143605720, some 834648173, some 3316836859, some 1052833539⟩) := by decide
  have n2 : XorShift.nextInt ⟨some 143605720, some 834648173, some 3316836859, some 1052833539⟩ =
      (1338015484, ⟨some 834648173, some 3316836859, some 1052833539, some 1338015484⟩) := by decide
  have n3 : XorShift.nextInt ⟨some 834648173, some 3316836859, some 1052833539, some 1338015484⟩ =
      (-2089755719, ⟨some 3316836859, some 1052833539, some 1338015484, some (-2089755719)⟩) := by
    decide
  have n4 : XorShift.nextInt ⟨some 3316836859, some 1052833539, some 1338015484, some (-2089755719)⟩ =
      (-773912803, ⟨some 1052833539, some 1338015484, some (-2089755719), some (-773912803)⟩) := by
    decide
  have e1 : XorShift.nextIntBet ⟨some 1203210177, some 143605720, some 834648173, some 3316836859⟩ 2 4 =
      (3, ⟨some 143605720, some 834648173, some 3316836859, some 1052833539⟩) :=
    nextIntBet_eval (by norm_num) n1 (by norm_num [jsMod, jsTrunc])
  have eidx : ∀ s : XorShift, s.nextIntBet 0 0 = (0, s) := fun s => nextIntBet_of_ge s le_rfl
  have e2 : XorShift.nextIntBet ⟨some 143605720, some 834648173, some 3316836859, some 1052833539⟩ 51 272 =
      (207, ⟨some 834648173, some 3316836859, some 1052833539, some 1338015484⟩) :=
    nextIntBet_eval (by norm_num) n2 (by norm_num [jsMod, jsTrunc])
  have e3 : XorShift.nextIntBet ⟨some 834648173, some 3316836859, some 1052833539, some 1338015484⟩ 103 409 =
      (120, ⟨some 3316836859, some 1052833539, some 1338015484, some (-2089755719)⟩) :=
    nextIntBet_eval (by norm_num) n3 (by norm_num [jsMod, jsTrunc])
  have e4 : XorShift.nextIntBet ⟨some 3316836859, some 1052833539, some 1338015484, some (-2089755719)⟩ 103 291 =
      (190, ⟨some 1052833539, some 1338015484, some (-2089755719), some (-773912803)⟩) :=
    nextIntBet_eval (by norm_num) n4 (by norm_num [jsMod, jsTrunc])
  simp only [renderFirstPlacementData, nextTransformData, determineCenterPoint, hseed,
    bezierFireSeeds, emptyFire, List.getD, List.get?, Option.getD, List.length_cons,
    List.length_nil]
  norm_num [e1, eidx]
  norm_num [e2, jsFloor]
  norm_num [e3, e4]

/-- C10 counterexample.  At identifier cexAddr with canvas width 512 the
first placement picks midpointX = 120 = frame.x1 inside the middle branch of
calcBarAngleRange, so one of its slope divisions has denominator exactly 0;
the claim that no division by zero occurs fails. -/
theorem renderImage_slope_division_by_zero :
    (renderFirstPlacementData cexAddr 512).1.midpoint.x = seedFire0.frame.x1 ∧
    seedFire0.frame.x1 ≤ (renderFirstPlacementData cexAddr 512).1.midpoint.x ∧
    (renderFirstPlacementData cexAddr 512).1.midpoint.x ≤ seedFire0.frame.x2 ∧
    (0 : ℚ) ∈ slopeDenominators seedFire0 (renderFirstPlacementData cexAddr 512).1.midpoint.x := by
  rw [renderFirstPlacement_eval]
  refine ⟨by norm_num [seedFire0, bezierFireSeeds], by norm_num [seedFire0, bezierFireSeeds],
    by norm_num [seedFire0, bezierFireSeeds], ?_⟩
  have h : slopeDenominators seedFire0 (120 : ℚ) = [0, -272] := by
    norm_num [slopeDenominators, seedFire0, bezierFireSeeds, emptyFire]
  rw [h]
  simp

/-- C10 amended.  Every table access is in bounds: the palette lookup index
checkTierOf(counter) - 1 always hits the 8-entry palette table, and the
seed-library draw nextIntBet(0, length - 1) is always 0 (in bounds for the
one-entry library); but internal computation is not division free: for some
render input the slope computation of calcBarAngleRange divides by zero. -/
theorem tables_in_bounds_but_slope_division_by_zero :
    (∀ g : ℤ, (getTieredFireColor (checkTierOf g)).isSome = true) ∧
    (∀ s : XorShift, (s.nextIntBet 0 ((bezierFireSeeds.length : ℚ) - 1)).1 = 0) ∧
    0 < bezierFireSeeds.length ∧
    (∃ address width, (0 : ℚ) ∈
      slopeDenominators seedFire0 (renderFirstPlacementData address width).1.midpoint.x) := by
  refine ⟨fun g => ?_, fun s => ?_, by norm_num [bezierFireSeeds], ?_⟩
  · have hsorted : tierBoundaries.Sorted (· ≤ ·) := by rw [tierBoundaries]; decide
    have heq := checkTierOfLoop_eq_countP g tierBoundaries hsorted
    have hle : tierBoundaries.countP (fun b => decide (b ≤ g)) ≤ tierBoundaries.length :=
      List.countP_le_length _
    have hlen : tierBoundaries.length = 7 := by rw [tierBoundaries]; rfl
    have h1 : 1 ≤ checkTierOf g := by rw [checkTierOf, heq]; omega
    have h8 : checkTierOf g ≤ 8 := by rw [checkTierOf, heq]; omega
    rw [getTieredFireColor, if_neg (by omega)]
    have hidx : (checkTierOf g - 1).toNat < tierFireColor.length := by
      have : tierFireColor.length = 8 := by rw [tierFireColor]; rfl
      omega
    rw [List.get?_eq_getElem?, List.getElem?_eq_getElem hidx]
    rfl
  · have hlen : ((bezierFireSeeds.length : ℚ) - 1) = 0 := by norm_num [bezierFireSeeds]
    rw [hlen, nextIntBet_of_ge s le_rfl]
  · refine ⟨cexAddr, 512, ?_⟩
    rw [renderFirstPlacement_eval]
    have h : slopeDenominators seedFire0 (120 : ℚ) = [0, -272] := by
      norm_num [slopeDenominators, seedFire0, bezierFireSeeds, emptyFire]
    rw [h]
    simp

/-! ## C8: layer order of drawBezierFrame -/

/-- Alignment shift of the spec: move each instance so its base x matches
the base x of the first instance. -/
def specAlign (baseFire fire : BezierFire) : BezierFire :=
  fire.move (baseFire.fireBase.x - fire.fireBase.x) 0

/-- One centroid-pivot layer as the spec describes it: every instance
aligned, scaled about its approximate centroid and filled. -/
def specCentroidLayer (color : String) (factor : ℚ) (baseFire : BezierFire)
    (fires : List BezierFire) : List DrawOp :=
  (fires.map fun fire =>
    drawBezierFire
      ((specAlign baseFire fire).scale
        (calculateApproximateCentroid (specAlign baseFire fire)).x
        (calculateApproximateCentroid (specAlign baseFire fire)).y factor) color).flatten

/-- One base-pivot layer as the spec describes it: every instance aligned,
scaled about its own base point and filled. -/
def specBaseLayer (color : String) (factor : ℚ) (baseFire : BezierFire)
    (fires : List BezierFire) : List DrawOp :=
  (fires.map fun fire =>
    drawBezierFire
      ((specAlign baseFire fire).scale (specAlign baseFire fire).fireBase.x
        (specAlign baseFire fire).fireBase.y factor) color).flatten

/-- The layer ordering as the spec states it: all white at 1.0 about the
centroid, then all black at 0.93, then all palette outer at 0.84, then all
palette middle at 0.55 about the base, then the single palette inner fill of
the first instance at 0.3 about its base. -/
def specLayerOrder (fireColor : TieredFireColor) (fires : List BezierFire) : List DrawOp :=
  let baseFire := fires.headD emptyFire
  specCentroidLayer "#ffffff" 1 baseFire fires
  ++ specCentroidLayer "#000000" (93/100) baseFire fires
  ++ specCentroidLayer fireColor.outer (84/100) baseFire fires
  ++ specBaseLayer fireColor.middle (55/100) baseFire fires
  ++ drawBezierFire (baseFire.scale baseFire.fireBase.x baseFire.fireBase.y (3/10)) fireColor.inner

/-- The fill styles set along a draw log, in order. -/
def fillStyles (log : List DrawOp) : List String :=
  log.filterMap fun op =>
    match op with
    | DrawOp.setFillStyle color => some color
    | _ => none

theorem fillStyles_append (l1 l2 : List DrawOp) :
    fillStyles (l1 ++ l2) = fillStyles l1 ++ fillStyles l2 :=
  List.filterMap_append _ _ _

theorem filterMap_none {α β : Type} (l : List α) :
    List.filterMap (fun _ => (none : Option β)) l = [] := by
  induction l with
  | nil => rfl
  | cons a l ih => simp [List.filterMap_cons, ih]

theorem fillStyles_drawBezierFire (f : BezierFire) (color : String) :
    fillStyles (drawBezierFire f color) = [color] := by
  simp [fillStyles, drawBezierFire, List.filterMap_append, List.filterMap_map,
    Function.comp, filterMap_none]

theorem fillStyles_layer (fires : List BezierFire) (g : BezierFire → BezierFire)
    (color : String) :
    fillStyles ((fires.map fun fire => drawBezierFire (g fire) color).flatten) =
      List.replicate fires.length color := by
  induction fires with
  | nil => rfl
  | cons f fs ih =>
      simp only [List.map_cons, List.flatten_cons, fillStyles_append,
        fillStyles_drawBezierFire, ih, List.length_cons, List.replicate_succ]
      rfl

/-- C8.  For every palette and every list of 2 to 4 instances, the emitted
log is exactly the five spec layers in back-to-front order, and the fill
styles along the log are n white fills, n black fills, n outer fills, n
middle fills and exactly one inner fill. -/
theorem drawBezierFrame_layer_order (fireColor : TieredFireColor) (fires : List BezierFire)
    (h2 : 2 ≤ fires.length) (h4 : fires.length ≤ 4) :
    drawBezierFrame fireColor fires = specLayerOrder fireColor fires ∧
    fillStyles (drawBezierFrame fireColor fires) =
      List.replicate fires.length "#ffffff" ++ List.replicate fires.length "#000000" ++
      List.replicate fires.length fireColor.outer ++
      List.replicate fires.length fireColor.middle ++ [fireColor.inner] := by
  have heq : drawBezierFrame fireColor fires = specLayerOrder fireColor fires := rfl
  refine ⟨heq, ?_⟩
  rw [heq, specLayerOrder]
  simp only [specCentroidLayer, specBaseLayer, fillStyles_append, fillStyles_layer,
    fillStyles_drawBezierFire]

/-- Witness for C8 with two copies of the seed shape and the tier-1 palette. -/
theorem drawBezierFrame_layer_order_witness :
    (2 ≤ ([seedFire0, seedFire0] : List BezierFire).length ∧
     ([seedFire0, seedFire0] : List BezierFire).length ≤ 4) ∧
    (drawBezierFrame ⟨"#414141", "#797979", "#ffffff"⟩ [seedFire0, seedFire0] =
       specLayerOrder ⟨"#414141", "#797979", "#ffffff"⟩ [seedFire0, seedFire0] ∧
     fillStyles (drawBezierFrame ⟨"#414141", "#797979", "#ffffff"⟩ [seedFire0, seedFire0]) =
       List.replicate ([seedFire0, seedFire0] : List BezierFire).length "#ffffff" ++
       List.replicate ([seedFire0, seedFire0] : List BezierFire).length "#000000" ++
       List.replicate ([seedFire0, seedFire0] : List BezierFire).length "#414141" ++
       List.replicate ([seedFire0, seedFire0] : List BezierFire).length "#797979" ++
       ["#ffffff"]) :=
  ⟨⟨by norm_num, by norm_num⟩,
   drawBezierFrame_layer_order ⟨"#414141", "#797979", "#ffffff"⟩ [seedFire0, seedFire0]
     (by norm_num) (by norm_num)⟩

/-! ## C9: round trip of the homography solver -/
set_option maxHeartbeats 2000000 in
theorem invert4_mul {m : Matrix (Fin 4) (Fin 4) ℚ} (h : det4 m ≠ 0) : invert4 m * m = 1 := by
  rw [invert4, if_neg h]
  rw [det4] at h
  have h00 : (inv4core m * m) 0 0 = (1 : Matrix (Fin 4) (Fin 4) ℚ) 0 0 := by
    rw [Matrix.one_apply_eq]
    simp only [inv4core, Matrix.mul_apply, Fin.sum_univ_four, Matrix.of_apply,
      Matrix.cons_val_zero, Matrix.cons_val_one, Matrix.cons_val_two, Matrix.cons_val_three,
      Matrix.head_cons, Matrix.vecHead, Matrix.vecTail]
    field_simp
    ring
  have h01 : (inv4core m * m) 0 1 = (1 : Matrix (Fin 4) (Fin 4) ℚ) 0 1 := by
    rw [Matrix.one_apply_ne (by decide)]
    simp only [inv4core, Matrix.mul_apply, Fin.sum_univ_four, Matrix.of_apply,
      Matrix.cons_val_zero, Matrix.cons_val_one, Matrix.cons_val_two, Matrix.cons_val_three,
      Matrix.head_cons, Matrix.vecHead, Matrix.vecTail]
    field_simp
    ring
  have h02 : (inv4core m * m) 0 2 = (1 : Matrix (Fin 4) (Fin 4) ℚ) 0 2 := by
    rw [Matrix.one_apply_ne (by decide)]
    simp only [inv4core, Matrix.mul_apply, Fin.sum_univ_four, Matrix.of_apply,
      Matrix.cons_val_zero, Matrix.cons_val_one, Matrix.cons_val_two, Matrix.cons_val_three,
      Matrix.head_cons, Matrix.vecHead, Matrix.vecTail]
    field_simp
    ring
  have h03 : (inv4core m * m) 0 3 = (1 : Matrix (Fin 4) (Fin 4) ℚ) 0 3 := by
    rw [Matrix.one_apply_ne (by decide)]
    simp only [inv4core, Matrix.mul_apply, Fin.sum_univ_four, Matrix.of_apply,
      Matrix.cons_val_zero, Matrix.cons_val_one, Matrix.cons_val_two, Matrix.cons_val_three,
      Matrix.head_cons, Matrix.vecHead, Matrix.vecTail]
    field_simp
    ring
  have h10 : (inv4core m * m) 1 0 = (1 : Matrix (Fin 4) (Fin 4) ℚ) 1 0 := by
    rw [Matrix.one_apply_ne (by decide)]
    simp only [inv4core, Matrix.mul_apply, Fin.sum_univ_four, Matrix.of_apply,
      Matrix.cons_val_zero, Matrix.cons_val_one, Matrix.cons_val_two, Matrix.cons_val_three,
      Matrix.head_cons, Matrix.vecHead, Matrix.vecTail]
    field_simp
    ring
  have h11 : (inv4core m * m) 1 1 = (1 : Matrix (Fin 4) (Fin 4) ℚ) 1 1 := by
    rw [Matrix.one_apply_eq]
    simp only [inv4core, Matrix.mul_apply, Fin.sum_univ_four, Matrix.of_apply,
      Matrix.cons_val_zero, Matrix.cons_val_one, Matrix.cons_val_two, Matrix.cons_val_three,
      Matrix.head_cons, Matrix.vecHead, Matrix.vecTail]
    field_simp
    ring
  have h12 : (inv4core m * m) 1 2 = (1 : Matrix (Fin 4) (Fin 4) ℚ) 1 2 := by
    rw [Matrix.one_apply_ne (by decide)]
    simp only [inv4core, Matrix.mul_apply, Fin.sum_univ_four, Matrix.of_apply,
      Matrix.cons_val_zero, Matrix.cons_val_one, Matrix.cons_val_two, Matrix.cons_val_three,
      Matrix.head_cons, Matrix.vecHead, Matrix.vecTail]
    field_simp
    ring
  have h13 : (inv4core m * m) 1 3 = (1 : Matrix (Fin 4) (Fin 4) ℚ) 1 3 := by
    rw [Matrix.one_apply_ne (by decide)]
    simp only [inv4core, Matrix.mul_apply, Fin.sum_univ_four, Matrix.of_apply,
      Matrix.cons_val_zero, Matrix.cons_val_one, Matrix.cons_val_two, Matrix.cons_val_three,
      Matrix.head_cons, Matrix.vecHead, Matrix.vecTail]
    field_simp
    ring
  have h20 : (inv4core m * m) 2 0 = (1 : Matrix (Fin 4) (Fin 4) ℚ) 2 0 := by
    rw [Matrix.one_apply_ne (by decide)]
    simp only [inv4core, Matrix.mul_apply, Fin.sum_univ_four, Matrix.of_apply,
      Matrix.cons_val_zero, Matrix.cons_val_one, Matrix.cons_val_two, Matrix.cons_val_three,
      Matrix.head_cons, Matrix.vecHead, Matrix.vecTail]
    field_simp
    ring
  have h21 : (inv4core m * m) 2 1 = (1 : Matrix (Fin 4) (Fin 4) ℚ) 2 1 := by
    rw [Matrix.one_apply_ne (by decide)]
    simp only [inv4core, Matrix.mul_apply, Fin.sum_univ_four, Matrix.of_apply,
      Matrix.cons_val_zero, Matrix.cons_val_one, Matrix.cons_val_two, Matrix.cons_val_three,
      Matrix.head_cons, Matrix.vecHead, Matrix.vecTail]
    field_simp
    ring
  have h22 : (inv4core m * m) 2 2 = (1 : Matrix (Fin 4) (Fin 4) ℚ) 2 2 := by
    rw [Matrix.one_apply_eq]
    simp only [inv4core, Matrix.mul_apply, Fin.sum_univ_four, Matrix.of_apply,
      Matrix.cons_val_zero, Matrix.cons_val_one, Matrix.cons_val_two, Matrix.cons_val_three,
      Matrix.head_cons, Matrix.vecHead, Matrix.vecTail]
    field_simp
    ring
  have h23 : (inv4core m * m) 2 3 = (1 : Matrix (Fin 4) (Fin 4) ℚ) 2 3 := by
    rw [Matrix.one_apply_ne (by decide)]
    simp only [inv4core, Matrix.mul_apply, Fin.sum_univ_four, Matrix.of_apply,
      Matrix.cons_val_zero, Matrix.cons_val_one, Matrix.cons_val_two, Matrix.cons_val_three,
      Matrix.head_cons, Matrix.vecHead, Matrix.vecTail]
    field_simp
    ring
  have h30 : (inv4core m * m) 3 0 = (1 : Matrix (Fin 4) (Fin 4) ℚ) 3 0 := by
    rw [Matrix.one_apply_ne (by decide)]
    simp only [inv4core, Matrix.mul_apply, Fin.sum_univ_four, Matrix.of_apply,
      Matrix.cons_val_zero, Matrix.cons_val_one, Matrix.cons_val_two, Matrix.cons_val_three,
      Matrix.head_cons, Matrix.vecHead, Matrix.vecTail]
    field_simp
    ring
  have h31 : (inv4core m * m) 3 1 = (1 : Matrix (Fin 4) (Fin 4) ℚ) 3 1 := by
    rw [Matrix.one_apply_ne (by decide)]
    simp only [inv4core, Matrix.mul_apply, Fin.sum_univ_four, Matrix.of_apply,
      Matrix.cons_val_zero, Matrix.cons_val_one, Matrix.cons_val_two, Matrix.cons_val_three,
      Matrix.head_cons, Matrix.vecHead, Matrix.vecTail]
    field_simp
    ring
  have h32 : (inv4core m * m) 3 2 = (1 : Matrix (Fin 4) (Fin 4) ℚ) 3 2 := by
    rw [Matrix.one_apply_ne (by decide)]
    simp only [inv4core, Matrix.mul_apply, Fin.sum_univ_four, Matrix.of_apply,
      Matrix.cons_val_zero, Matrix.cons_val_one, Matrix.cons_val_two, Matrix.cons_val_three,
      Matrix.head_cons, Matrix.vecHead, Matrix.vecTail]
    field_simp
    ring
  have h33 : (inv4core m * m) 3 3 = (1 : Matrix (Fin 4) (Fin 4) ℚ) 3 3 := by
    rw [Matrix.one_apply_eq]
    simp only [inv4core, Matrix.mul_apply, Fin.sum_univ_four, Matrix.of_apply,
      Matrix.cons_val_zero, Matrix.cons_val_one, Matrix.cons_val_two, Matrix.cons_val_three,
      Matrix.head_cons, Matrix.vecHead, Matrix.vecTail]
    field_simp
    ring
  refine Matrix.ext fun i j => ?_
  fin_cases i <;> fin_cases j <;>
    first | exact h00 | exact h01 | exact h02 | exact h03 | exact h10 | exact h11 | exact h12 | exact h13 | exact h20 | exact h21 | exact h22 | exact h23 | exact h30 | exact h31 | exact h32 | exact h33


theorem kvec_mul_col {N M : Matrix (Fin 4) (Fin 4) ℚ} (h : N * M = 1) (u : Fin 4 → ℚ) (c : Fin 4) :
    kvec N u 0 * M 0 c + kvec N u 1 * M 1 c + kvec N u 2 * M 2 c + kvec N u 3 * M 3 c = u c := by
  have h1 : Matrix.vecMul (Matrix.vecMul u N) M = u := by
    rw [Matrix.vecMul_vecMul, h, Matrix.vecMul_one]
  have h2 := congrFun h1 c
  simp only [Matrix.vecMul, Matrix.dotProduct, Fin.sum_univ_four] at h2
  simp only [kvec]
  linear_combination h2

theorem cramer_core_left (a2 a3 b2 b3 u2 u3 : ℚ) (hd : a2 * (-b3) - (-b2) * a3 ≠ 0) :
    ((-b3 * (1 / (a2 * (-b3) - (-b2) * a3))) * u2 + (b2 * (1 / (a2 * (-b3) - (-b2) * a3))) * u3) * a2
      - ((-a3 * (1 / (a2 * (-b3) - (-b2) * a3))) * u2 + (a2 * (1 / (a2 * (-b3) - (-b2) * a3))) * u3) * b2
      = u2 := by
  have hd' : -(b3 * a2) + b2 * a3 ≠ 0 := fun h => hd (by linarith)
  have expand :
      ((-b3 * (1 / (a2 * (-b3) - (-b2) * a3))) * u2 + (b2 * (1 / (a2 * (-b3) - (-b2) * a3))) * u3) * a2
      - ((-a3 * (1 / (a2 * (-b3) - (-b2) * a3))) * u2 + (a2 * (1 / (a2 * (-b3) - (-b2) * a3))) * u3) * b2
      = u2 * ((-(b3 * a2) + b2 * a3) * (-(b3 * a2) + b2 * a3)⁻¹) := by
    ring
  rw [expand, mul_inv_cancel₀ hd', mul_one]
theorem cramer_core_right (a2 a3 b2 b3 u2 u3 : ℚ) (hd : a2 * (-b3) - (-b2) * a3 ≠ 0) :
    ((-b3 * (1 / (a2 * (-b3) - (-b2) * a3))) * u2 + (b2 * (1 / (a2 * (-b3) - (-b2) * a3))) * u3) * a3
      - ((-a3 * (1 / (a2 * (-b3) - (-b2) * a3))) * u2 + (a2 * (1 / (a2 * (-b3) - (-b2) * a3))) * u3) * b3
      = u3 := by
  have hd' : -(b3 * a2) + b2 * a3 ≠ 0 := fun h => hd (by linarith)
  have expand :
      ((-b3 * (1 / (a2 * (-b3) - (-b2) * a3))) * u2 + (b2 * (1 / (a2 * (-b3) - (-b2) * a3))) * u3) * a3
      - ((-a3 * (1 / (a2 * (-b3) - (-b2) * a3))) * u2 + (a2 * (1 / (a2 * (-b3) - (-b2) * a3))) * u3) * b3
      = u3 * ((-(b3 * a2) + b2 * a3) * (-(b3 * a2) + b2 * a3)⁻¹) := by
    ring
  rw [expand, mul_inv_cancel₀ hd', mul_one]

set_option maxHeartbeats 2000000 in
/-- C9 amended.  For every source and destination quadrilateral whose
coordinates are all nonzero (so the 0 to 0.5 substitution leaves them
unchanged), if both 4x4 correspondence systems and the translation-term
determinant are non-singular and the projective divisor is nonzero at every
corner, then applying the solved homography to each source corner
reproduces the corresponding destination corner exactly. -/
theorem calcProjectionMatrix_round_trip (src dest : Fin 4 → ℚ × ℚ)
    (hnz : ∀ i, (src i).1 ≠ 0 ∧ (src i).2 ≠ 0 ∧ (dest i).1 ≠ 0 ∧ (dest i).2 ≠ 0)
    (hdx : det4 (txMatOf src dest) ≠ 0) (hdy : det4 (tyMatOf src dest) ≠ 0)
    (hd1 : det1preOf src dest ≠ 0)
    (hz : ∀ i, zdenomOf src dest i ≠ 0)
    (c : Fin 4) :
    (createTransformBy ⟨src, dest⟩).transform (src c) = dest c := by
  have hZsx : ∀ i, Zadj (src i).1 = (src i).1 := fun i => if_neg (hnz i).1
  have hZsy : ∀ i, Zadj (src i).2 = (src i).2 := fun i => if_neg (hnz i).2.1
  have hZdx : ∀ i, Zadj (dest i).1 = (dest i).1 := fun i => if_neg (hnz i).2.2.1
  have hZdy : ∀ i, Zadj (dest i).2 = (dest i).2 := fun i => if_neg (hnz i).2.2.2
  have hN1 : invert4 (txMatOf src dest) * txMatOf src dest = 1 := invert4_mul hdx
  have hN2 : invert4 (tyMatOf src dest) * tyMatOf src dest = 1 := invert4_mul hdy
  -- the four row identities of the x system and the y system at corner c
  have ex := kvec_mul_col hN1 (fun i => Zadj (dest i).1) c
  have ec := kvec_mul_col hN1 (fun _ => (1 : ℚ)) c
  have ey := kvec_mul_col hN2 (fun i => Zadj (dest i).2) c
  have ef := kvec_mul_col hN2 (fun _ => (1 : ℚ)) c
  have hM0 : txMatOf src dest 0 c = Zadj (src c).1 := rfl
  have hM1 : txMatOf src dest 1 c = Zadj (src c).2 := rfl
  have hM2 : txMatOf src dest 2 c = -(Zadj (src c).1 * Zadj (dest c).1) := rfl
  have hM3 : txMatOf src dest 3 c = -(Zadj (src c).2 * Zadj (dest c).1) := rfl
  have hW0 : tyMatOf src dest 0 c = Zadj (src c).1 := rfl
  have hW1 : tyMatOf src dest 1 c = Zadj (src c).2 := rfl
  have hW2 : tyMatOf src dest 2 c = -(Zadj (src c).1 * Zadj (dest c).2) := rfl
  have hW3 : tyMatOf src dest 3 c = -(Zadj (src c).2 * Zadj (dest c).2) := rfl
  rw [hM0, hM1, hM2, hM3] at ex ec
  rw [hW0, hW1, hW2, hW3] at ey ef
  have fx : ∀ j, kvec (invert4 (txMatOf src dest)) (fun i => Zadj (dest i).1) j = kxOf src dest j :=
    fun j => rfl
  have fc : ∀ j, kvec (invert4 (txMatOf src dest)) (fun _ => (1 : ℚ)) j = kcOf src dest j :=
    fun j => rfl
  have fy : ∀ j, kvec (invert4 (tyMatOf src dest)) (fun i => Zadj (dest i).2) j = kyOf src dest j :=
    fun j => rfl
  have ff : ∀ j, kvec (invert4 (tyMatOf src dest)) (fun _ => (1 : ℚ)) j = kfOf src dest j :=
    fun j => rfl
  simp only [fx, fc] at ex ec
  simp only [fy, ff] at ey ef
  simp only [hZsx, hZsy, hZdx, hZdy] at ex ec ey ef
  -- Cramer identities for the translation terms
  have hrcp : rcpOf src dest = 1 / det1preOf src dest := by rw [rcpOf, if_neg hd1]
  have hd1' := hd1
  rw [det1preOf] at hd1'
  have hcr2 : Cof src dest * kcOf src dest 2 - Fof src dest * kfOf src dest 2
      = kxOf src dest 2 - kyOf src dest 2 := by
    rw [Cof, Fof, hrcp, det1preOf]
    exact cramer_core_left _ _ _ _ _ _ hd1'
  have hcr3 : Cof src dest * kcOf src dest 3 - Fof src dest * kfOf src dest 3
      = kxOf src dest 3 - kyOf src dest 3 := by
    rw [Cof, Fof, hrcp, det1preOf]
    exact cramer_core_right _ _ _ _ _ _ hd1'
  have hg2 : kyOf src dest 2 - Fof src dest * kfOf src dest 2
      = kxOf src dest 2 - Cof src dest * kcOf src dest 2 := by linarith
  have hg3 : kyOf src dest 3 - Fof src dest * kfOf src dest 3
      = kxOf src dest 3 - Cof src dest * kcOf src dest 3 := by linarith
  -- the projective divisor at corner c
  have hzc : (src c).1 * (kxOf src dest 2 - Cof src dest * kcOf src dest 2)
      + (src c).2 * (kxOf src dest 3 - Cof src dest * kcOf src dest 3) + 1 ≠ 0 := by
    have h := hz c
    rw [zdenomOf] at h
    simp only [hZsx, hZsy] at h
    exact h
  -- numerator identities
  have hXnum : (src c).1 * (kxOf src dest 0 - Cof src dest * kcOf src dest 0)
      + (src c).2 * (kxOf src dest 1 - Cof src dest * kcOf src dest 1) + Cof src dest
      = (dest c).1 * ((src c).1 * (kxOf src dest 2 - Cof src dest * kcOf src dest 2)
        + (src c).2 * (kxOf src dest 3 - Cof src dest * kcOf src dest 3) + 1) := by
    linear_combination ex - Cof src dest * ec
  have hYnum : (src c).1 * (kyOf src dest 0 - Fof src dest * kfOf src dest 0)
      + (src c).2 * (kyOf src dest 1 - Fof src dest * kfOf src dest 1) + Fof src dest
      = (dest c).2 * ((src c).1 * (kxOf src dest 2 - Cof src dest * kcOf src dest 2)
        + (src c).2 * (kxOf src dest 3 - Cof src dest * kcOf src dest 3) + 1) := by
    linear_combination ey - Fof src dest * ef + (dest c).2 * (src c).1 * hg2 + (dest c).2 * (src c).2 * hg3
  -- assemble the transform
  simp only [createTransformBy, ProjectiveTransform.transform]
  have p0 : calcProjectionMatrix src dest 0 = kxOf src dest 0 - Cof src dest * kcOf src dest 0 := rfl
  have p1 : calcProjectionMatrix src dest 1 = kxOf src dest 1 - Cof src dest * kcOf src dest 1 := rfl
  have p2 : calcProjectionMatrix src dest 2 = Cof src dest := rfl
  have p3 : calcProjectionMatrix src dest 3 = kyOf src dest 0 - Fof src dest * kfOf src dest 0 := rfl
  have p4 : calcProjectionMatrix src dest 4 = kyOf src dest 1 - Fof src dest * kfOf src dest 1 := rfl
  have p5 : calcProjectionMatrix src dest 5 = Fof src dest := rfl
  have p6 : calcProjectionMatrix src dest 6 = kxOf src dest 2 - Cof src dest * kcOf src dest 2 := rfl
  have p7 : calcProjectionMatrix src dest 7 = kxOf src dest 3 - Cof src dest * kcOf src dest 3 := rfl
  have p8 : calcProjectionMatrix src dest 8 = 1 := rfl
  rw [p0, p1, p2, p3, p4, p5, p6, p7, p8]
  rw [Prod.ext_iff]
  constructor
  · show ((src c).1 * (kxOf src dest 0 - Cof src dest * kcOf src dest 0)
      + (src c).2 * (kxOf src dest 1 - Cof src dest * kcOf src dest 1) + Cof src dest)
      / ((src c).1 * (kxOf src dest 2 - Cof src dest * kcOf src dest 2)
        + (src c).2 * (kxOf src dest 3 - Cof src dest * kcOf src dest 3) + 1) = (dest c).1
    rw [hXnum, mul_div_assoc, div_self hzc, mul_one]
  · show ((src c).1 * (kyOf src dest 0 - Fof src dest * kfOf src dest 0)
      + (src c).2 * (kyOf src dest 1 - Fof src dest * kfOf src dest 1) + Fof src dest)
      / ((src c).1 * (kxOf src dest 2 - Cof src dest * kcOf src dest 2)
        + (src c).2 * (kxOf src dest 3 - Cof src dest * kcOf src dest 3) + 1) = (dest c).2
    rw [hYnum, mul_div_assoc, div_self hzc, mul_one]

theorem calcProjectionMatrix_e0 (src dest : Fin 4 → ℚ × ℚ) :
    calcProjectionMatrix src dest 0 = kxOf src dest 0 - Cof src dest * kcOf src dest 0 := rfl
theorem calcProjectionMatrix_e1 (src dest : Fin 4 → ℚ × ℚ) :
    calcProjectionMatrix src dest 1 = kxOf src dest 1 - Cof src dest * kcOf src dest 1 := rfl
theorem calcProjectionMatrix_e2 (src dest : Fin 4 → ℚ × ℚ) :
    calcProjectionMatrix src dest 2 = Cof src dest := rfl
theorem calcProjectionMatrix_e3 (src dest : Fin 4 → ℚ × ℚ) :
    calcProjectionMatrix src dest 3 = kyOf src dest 0 - Fof src dest * kfOf src dest 0 := rfl
theorem calcProjectionMatrix_e4 (src dest : Fin 4 → ℚ × ℚ) :
    calcProjectionMatrix src dest 4 = kyOf src dest 1 - Fof src dest * kfOf src dest 1 := rfl
theorem calcProjectionMatrix_e5 (src dest : Fin 4 → ℚ × ℚ) :
    calcProjectionMatrix src dest 5 = Fof src dest := rfl
theorem calcProjectionMatrix_e6 (src dest : Fin 4 → ℚ × ℚ) :
    calcProjectionMatrix src dest 6 = kxOf src dest 2 - Cof src dest * kcOf src dest 2 := rfl
theorem calcProjectionMatrix_e7 (src dest : Fin 4 → ℚ × ℚ) :
    calcProjectionMatrix src dest 7 = kxOf src dest 3 - Cof src dest * kcOf src dest 3 := rfl
theorem calcProjectionMatrix_e8 (src dest : Fin 4 → ℚ × ℚ) :
    calcProjectionMatrix src dest 8 = (1 : ℚ) := rfl

def srcW : Fin 4 → ℚ × ℚ := ![(1, 1), (3, 1), (3, 3), (1, 3)]

def destW : Fin 4 → ℚ × ℚ := ![(2, 1), (5, 2), (4, 4), (1, 3)]

set_option maxHeartbeats 2000000 in
/-- Witness for C9: a quadrilateral pair with no zero coordinates on which
every non-singularity hypothesis holds and the solved homography maps each
source corner exactly onto its destination corner. -/
theorem calcProjectionMatrix_round_trip_witness :
    (∀ i, (srcW i).1 ≠ 0 ∧ (srcW i).2 ≠ 0 ∧ (destW i).1 ≠ 0 ∧ (destW i).2 ≠ 0) ∧
    det4 (txMatOf srcW destW) ≠ 0 ∧ det4 (tyMatOf srcW destW) ≠ 0 ∧
    det1preOf srcW destW ≠ 0 ∧ (∀ i, zdenomOf srcW destW i ≠ 0) ∧
    (∀ c, (createTransformBy ⟨srcW, destW⟩).transform (srcW c) = destW c) := by
  have hkx0 : kxOf srcW destW 0 = 13/4 := by
    norm_num [kxOf, srcW, destW, kvec, invert4, inv4core, det4, txMatOf, tyMatOf, corrMat, Zadj, Matrix.of_apply, Matrix.cons_val_zero, Matrix.cons_val_one, Matrix.cons_val_two, Matrix.cons_val_three, Matrix.head_cons, Matrix.vecHead, Matrix.vecTail]
  have hkx1 : kxOf srcW destW 1 = -7/12 := by
    norm_num [kxOf, srcW, destW, kvec, invert4, inv4core, det4, txMatOf, tyMatOf, corrMat, Zadj, Matrix.of_apply, Matrix.cons_val_zero, Matrix.cons_val_one, Matrix.cons_val_two, Matrix.cons_val_three, Matrix.head_cons, Matrix.vecHead, Matrix.vecTail]
  have hkx2 : kxOf srcW destW 2 = 1/4 := by
    norm_num [kxOf, srcW, destW, kvec, invert4, inv4core, det4, txMatOf, tyMatOf, corrMat, Zadj, Matrix.of_apply, Matrix.cons_val_zero, Matrix.cons_val_one, Matrix.cons_val_two, Matrix.cons_val_three, Matrix.head_cons, Matrix.vecHead, Matrix.vecTail]
  have hkx3 : kxOf srcW destW 3 = 1/12 := by
    norm_num [kxOf, srcW, destW, kvec, invert4, inv4core, det4, txMatOf, tyMatOf, corrMat, Zadj, Matrix.of_apply, Matrix.cons_val_zero, Matrix.cons_val_one, Matrix.cons_val_two, Matrix.cons_val_three, Matrix.head_cons, Matrix.vecHead, Matrix.vecTail]
  have hkc0 : kcOf srcW destW 0 = 7/4 := by
    norm_num [kcOf, srcW, destW, kvec, invert4, inv4core, det4, txMatOf, tyMatOf, corrMat, Zadj, Matrix.of_apply, Matrix.cons_val_zero, Matrix.cons_val_one, Matrix.cons_val_two, Matrix.cons_val_three, Matrix.head_cons, Matrix.vecHead, Matrix.vecTail]
  have hkc1 : kcOf srcW destW 1 = -1/12 := by
    norm_num [kcOf, srcW, destW, kvec, invert4, inv4core, det4, txMatOf, tyMatOf, corrMat, Zadj, Matrix.of_apply, Matrix.cons_val_zero, Matrix.cons_val_one, Matrix.cons_val_two, Matrix.cons_val_three, Matrix.head_cons, Matrix.vecHead, Matrix.vecTail]
  have hkc2 : kcOf srcW destW 2 = 1/4 := by
    norm_num [kcOf, srcW, destW, kvec, invert4, inv4core, det4, txMatOf, tyMatOf, corrMat, Zadj, Matrix.of_apply, Matrix.cons_val_zero, Matrix.cons_val_one, Matrix.cons_val_two, Matrix.cons_val_three, Matrix.head_cons, Matrix.vecHead, Matrix.vecTail]
  have hkc3 : kcOf srcW destW 3 = 1/12 := by
    norm_num [kcOf, srcW, destW, kvec, invert4, inv4core, det4, txMatOf, tyMatOf, corrMat, Zadj, Matrix.of_apply, Matrix.cons_val_zero, Matrix.cons_val_one, Matrix.cons_val_two, Matrix.cons_val_three, Matrix.head_cons, Matrix.vecHead, Matrix.vecTail]
  have hky0 : kyOf srcW destW 0 = 2/3 := by
    norm_num [kyOf, srcW, destW, kvec, invert4, inv4core, det4, txMatOf, tyMatOf, corrMat, Zadj, Matrix.of_apply, Matrix.cons_val_zero, Matrix.cons_val_one, Matrix.cons_val_two, Matrix.cons_val_three, Matrix.head_cons, Matrix.vecHead, Matrix.vecTail]
  have hky1 : kyOf srcW destW 1 = 2/9 := by
    norm_num [kyOf, srcW, destW, kvec, invert4, inv4core, det4, txMatOf, tyMatOf, corrMat, Zadj, Matrix.of_apply, Matrix.cons_val_zero, Matrix.cons_val_one, Matrix.cons_val_two, Matrix.cons_val_three, Matrix.head_cons, Matrix.vecHead, Matrix.vecTail]
  have hky2 : kyOf srcW destW 2 = 1/9 := by
    norm_num [kyOf, srcW, destW, kvec, invert4, inv4core, det4, txMatOf, tyMatOf, corrMat, Zadj, Matrix.of_apply, Matrix.cons_val_zero, Matrix.cons_val_one, Matrix.cons_val_two, Matrix.cons_val_three, Matrix.head_cons, Matrix.vecHead, Matrix.vecTail]
  have hky3 : kyOf srcW destW 3 = -2/9 := by
    norm_num [kyOf, srcW, destW, kvec, invert4, inv4core, det4, txMatOf, tyMatOf, corrMat, Zadj, Matrix.of_apply, Matrix.cons_val_zero, Matrix.cons_val_one, Matrix.cons_val_two, Matrix.cons_val_three, Matrix.head_cons, Matrix.vecHead, Matrix.vecTail]
  have hkf0 : kfOf srcW destW 0 = -1/3 := by
    norm_num [kfOf, srcW, destW, kvec, invert4, inv4core, det4, txMatOf, tyMatOf, corrMat, Zadj, Matrix.of_apply, Matrix.cons_val_zero, Matrix.cons_val_one, Matrix.cons_val_two, Matrix.cons_val_three, Matrix.head_cons, Matrix.vecHead, Matrix.vecTail]
  have hkf1 : kfOf srcW destW 1 = 14/9 := by
    norm_num [kfOf, srcW, destW, kvec, invert4, inv4core, det4, txMatOf, tyMatOf, corrMat, Zadj, Matrix.of_apply, Matrix.cons_val_zero, Matrix.cons_val_one, Matrix.cons_val_two, Matrix.cons_val_three, Matrix.head_cons, Matrix.vecHead, Matrix.vecTail]
  have hkf2 : kfOf srcW destW 2 = -2/9 := by
    norm_num [kfOf, srcW, destW, kvec, invert4, inv4core, det4, txMatOf, tyMatOf, corrMat, Zadj, Matrix.of_apply, Matrix.cons_val_zero, Matrix.cons_val_one, Matrix.cons_val_two, Matrix.cons_val_three, Matrix.head_cons, Matrix.vecHead, Matrix.vecTail]
  have hkf3 : kfOf srcW destW 3 = 4/9 := by
    norm_num [kfOf, srcW, destW, kvec, invert4, inv4core, det4, txMatOf, tyMatOf, corrMat, Zadj, Matrix.of_apply, Matrix.cons_val_zero, Matrix.cons_val_one, Matrix.cons_val_two, Matrix.cons_val_three, Matrix.head_cons, Matrix.vecHead, Matrix.vecTail]
  have hd1v : det1preOf srcW destW = -7/54 := by
    rw [det1preOf, hkc2, hkc3, hkf2, hkf3]
    norm_num
  have hrcpv : rcpOf srcW destW = -54/7 := by
    rw [rcpOf, hd1v]
    norm_num
  have hCv : Cof srcW destW = 1 := by
    rw [Cof, hrcpv, hkf2, hkf3, hkx2, hky2, hkx3, hky3]
    norm_num
  have hFv : Fof srcW destW = -1/2 := by
    rw [Fof, hrcpv, hkc2, hkc3, hkx2, hky2, hkx3, hky3]
    norm_num
  have q6 : calcProjectionMatrix srcW destW 6 = 0 := by
    rw [calcProjectionMatrix_e6, hkx2, hCv, hkc2]
    norm_num
  have q7 : calcProjectionMatrix srcW destW 7 = 0 := by
    rw [calcProjectionMatrix_e7, hkx3, hCv, hkc3]
    norm_num
  have hnz0 : (srcW 0).1 ≠ 0 ∧ (srcW 0).2 ≠ 0 ∧ (destW 0).1 ≠ 0 ∧ (destW 0).2 ≠ 0 := by
    refine ⟨?_, ?_, ?_, ?_⟩ <;> norm_num [srcW, destW]
  have hnz1 : (srcW 1).1 ≠ 0 ∧ (srcW 1).2 ≠ 0 ∧ (destW 1).1 ≠ 0 ∧ (destW 1).2 ≠ 0 := by
    refine ⟨?_, ?_, ?_, ?_⟩ <;> norm_num [srcW, destW]
  have hnz2 : (srcW 2).1 ≠ 0 ∧ (srcW 2).2 ≠ 0 ∧ (destW 2).1 ≠ 0 ∧ (destW 2).2 ≠ 0 := by
    refine ⟨?_, ?_, ?_, ?_⟩ <;> norm_num [srcW, destW]
  have hnz3 : (srcW 3).1 ≠ 0 ∧ (srcW 3).2 ≠ 0 ∧ (destW 3).1 ≠ 0 ∧ (destW 3).2 ≠ 0 := by
    refine ⟨?_, ?_, ?_, ?_⟩ <;> norm_num [srcW, destW]
  have hnz : ∀ i, (srcW i).1 ≠ 0 ∧ (srcW i).2 ≠ 0 ∧ (destW i).1 ≠ 0 ∧ (destW i).2 ≠ 0 := by
    intro i
    fin_cases i
    · exact hnz0
    · exact hnz1
    · exact hnz2
    · exact hnz3
  have hdx : det4 (txMatOf srcW destW) ≠ 0 := by
    norm_num [srcW, destW, kvec, invert4, inv4core, det4, txMatOf, tyMatOf, corrMat, Zadj, Matrix.of_apply, Matrix.cons_val_zero, Matrix.cons_val_one, Matrix.cons_val_two, Matrix.cons_val_three, Matrix.head_cons, Matrix.vecHead, Matrix.vecTail]
  have hdy : det4 (tyMatOf srcW destW) ≠ 0 := by
    norm_num [srcW, destW, kvec, invert4, inv4core, det4, txMatOf, tyMatOf, corrMat, Zadj, Matrix.of_apply, Matrix.cons_val_zero, Matrix.cons_val_one, Matrix.cons_val_two, Matrix.cons_val_three, Matrix.head_cons, Matrix.vecHead, Matrix.vecTail]
  have hd1 : det1preOf srcW destW ≠ 0 := by
    rw [hd1v]
    norm_num
  have hz : ∀ i, zdenomOf srcW destW i ≠ 0 := by
    intro i
    rw [zdenomOf, q6, q7, calcProjectionMatrix_e8]
    norm_num
  exact ⟨hnz, hdx, hdy, hd1, hz,
    fun c => calcProjectionMatrix_round_trip srcW destW hnz hdx hdy hd1 hz c⟩

def srcC : Fin 4 → ℚ × ℚ := ![(0, 1), (2, 1), (2, 3), (1, 3)]

def destC : Fin 4 → ℚ × ℚ := ![(1, 1), (3, 1), (3, 3), (2, 3)]

set_option maxHeartbeats 2000000 in
/-- C9 counterexample.  The first source corner of srcC has x coordinate 0,
so the solver replaces it with 0.5 before solving; all the non-singularity
conditions named by the claim hold, the projective divisor at the corner is
nonzero, yet applying the solved transform to the actual corner (0, 1)
yields (1/3, 1), not the destination corner (1, 1). -/
theorem calcProjectionMatrix_zero_coordinate_cex :
    (srcC 0).1 = 0 ∧
    det4 (txMatOf srcC destC) ≠ 0 ∧ det4 (tyMatOf srcC destC) ≠ 0 ∧
    det1preOf srcC destC ≠ 0 ∧
    (srcC 0).1 * calcProjectionMatrix srcC destC 6 +
      (srcC 0).2 * calcProjectionMatrix srcC destC 7 +
      calcProjectionMatrix srcC destC 8 ≠ 0 ∧
    (createTransformBy ⟨srcC, destC⟩).transform (srcC 0) ≠ destC 0 := by
  have hkx0 : kxOf srcC destC 0 = 3/4 := by
    norm_num [kxOf, srcC, destC, kvec, invert4, inv4core, det4, txMatOf, tyMatOf, corrMat, Zadj, Matrix.of_apply, Matrix.cons_val_zero, Matrix.cons_val_one, Matrix.cons_val_two, Matrix.cons_val_three, Matrix.head_cons, Matrix.vecHead, Matrix.vecTail]
  have hkx1 : kxOf srcC destC 1 = 3/4 := by
    norm_num [kxOf, srcC, destC, kvec, invert4, inv4core, det4, txMatOf, tyMatOf, corrMat, Zadj, Matrix.of_apply, Matrix.cons_val_zero, Matrix.cons_val_one, Matrix.cons_val_two, Matrix.cons_val_three, Matrix.head_cons, Matrix.vecHead, Matrix.vecTail]
  have hkx2 : kxOf srcC destC 2 = -1/4 := by
    norm_num [kxOf, srcC, destC, kvec, invert4, inv4core, det4, txMatOf, tyMatOf, corrMat, Zadj, Matrix.of_apply, Matrix.cons_val_zero, Matrix.cons_val_one, Matrix.cons_val_two, Matrix.cons_val_three, Matrix.head_cons, Matrix.vecHead, Matrix.vecTail]
  have hkx3 : kxOf srcC destC 3 = 1/4 := by
    norm_num [kxOf, srcC, destC, kvec, invert4, inv4core, det4, txMatOf, tyMatOf, corrMat, Zadj, Matrix.of_apply, Matrix.cons_val_zero, Matrix.cons_val_one, Matrix.cons_val_two, Matrix.cons_val_three, Matrix.head_cons, Matrix.vecHead, Matrix.vecTail]
  have hkc0 : kcOf srcC destC 0 = 17/4 := by
    norm_num [kcOf, srcC, destC, kvec, invert4, inv4core, det4, txMatOf, tyMatOf, corrMat, Zadj, Matrix.of_apply, Matrix.cons_val_zero, Matrix.cons_val_one, Matrix.cons_val_two, Matrix.cons_val_three, Matrix.head_cons, Matrix.vecHead, Matrix.vecTail]
  have hkc1 : kcOf srcC destC 1 = -3/4 := by
    norm_num [kcOf, srcC, destC, kvec, invert4, inv4core, det4, txMatOf, tyMatOf, corrMat, Zadj, Matrix.of_apply, Matrix.cons_val_zero, Matrix.cons_val_one, Matrix.cons_val_two, Matrix.cons_val_three, Matrix.head_cons, Matrix.vecHead, Matrix.vecTail]
  have hkc2 : kcOf srcC destC 2 = 5/4 := by
    norm_num [kcOf, srcC, destC, kvec, invert4, inv4core, det4, txMatOf, tyMatOf, corrMat, Zadj, Matrix.of_apply, Matrix.cons_val_zero, Matrix.cons_val_one, Matrix.cons_val_two, Matrix.cons_val_three, Matrix.head_cons, Matrix.vecHead, Matrix.vecTail]
  have hkc3 : kcOf srcC destC 3 = -1/4 := by
    norm_num [kcOf, srcC, destC, kvec, invert4, inv4core, det4, txMatOf, tyMatOf, corrMat, Zadj, Matrix.of_apply, Matrix.cons_val_zero, Matrix.cons_val_one, Matrix.cons_val_two, Matrix.cons_val_three, Matrix.head_cons, Matrix.vecHead, Matrix.vecTail]
  have hky0 : kyOf srcC destC 0 = 0 := by
    norm_num [kyOf, srcC, destC, kvec, invert4, inv4core, det4, txMatOf, tyMatOf, corrMat, Zadj, Matrix.of_apply, Matrix.cons_val_zero, Matrix.cons_val_one, Matrix.cons_val_two, Matrix.cons_val_three, Matrix.head_cons, Matrix.vecHead, Matrix.vecTail]
  have hky1 : kyOf srcC destC 1 = 1 := by
    norm_num [kyOf, srcC, destC, kvec, invert4, inv4core, det4, txMatOf, tyMatOf, corrMat, Zadj, Matrix.of_apply, Matrix.cons_val_zero, Matrix.cons_val_one, Matrix.cons_val_two, Matrix.cons_val_three, Matrix.head_cons, Matrix.vecHead, Matrix.vecTail]
  have hky2 : kyOf srcC destC 2 = 0 := by
    norm_num [kyOf, srcC, destC, kvec, invert4, inv4core, det4, txMatOf, tyMatOf, corrMat, Zadj, Matrix.of_apply, Matrix.cons_val_zero, Matrix.cons_val_one, Matrix.cons_val_two, Matrix.cons_val_three, Matrix.head_cons, Matrix.vecHead, Matrix.vecTail]
  have hky3 : kyOf srcC destC 3 = 0 := by
    norm_num [kyOf, srcC, destC, kvec, invert4, inv4core, det4, txMatOf, tyMatOf, corrMat, Zadj, Matrix.of_apply, Matrix.cons_val_zero, Matrix.cons_val_one, Matrix.cons_val_two, Matrix.cons_val_three, Matrix.head_cons, Matrix.vecHead, Matrix.vecTail]
  have hkf0 : kfOf srcC destC 0 = 0 := by
    norm_num [kfOf, srcC, destC, kvec, invert4, inv4core, det4, txMatOf, tyMatOf, corrMat, Zadj, Matrix.of_apply, Matrix.cons_val_zero, Matrix.cons_val_one, Matrix.cons_val_two, Matrix.cons_val_three, Matrix.head_cons, Matrix.vecHead, Matrix.vecTail]
  have hkf1 : kfOf srcC destC 1 = 4/3 := by
    norm_num [kfOf, srcC, destC, kvec, invert4, inv4core, det4, txMatOf, tyMatOf, corrMat, Zadj, Matrix.of_apply, Matrix.cons_val_zero, Matrix.cons_val_one, Matrix.cons_val_two, Matrix.cons_val_three, Matrix.head_cons, Matrix.vecHead, Matrix.vecTail]
  have hkf2 : kfOf srcC destC 2 = 0 := by
    norm_num [kfOf, srcC, destC, kvec, invert4, inv4core, det4, txMatOf, tyMatOf, corrMat, Zadj, Matrix.of_apply, Matrix.cons_val_zero, Matrix.cons_val_one, Matrix.cons_val_two, Matrix.cons_val_three, Matrix.head_cons, Matrix.vecHead, Matrix.vecTail]
  have hkf3 : kfOf srcC destC 3 = 1/3 := by
    norm_num [kfOf, srcC, destC, kvec, invert4, inv4core, det4, txMatOf, tyMatOf, corrMat, Zadj, Matrix.of_apply, Matrix.cons_val_zero, Matrix.cons_val_one, Matrix.cons_val_two, Matrix.cons_val_three, Matrix.head_cons, Matrix.vecHead, Matrix.vecTail]
  have hd1v : det1preOf srcC destC = -5/12 := by
    rw [det1preOf, hkc2, hkc3, hkf2, hkf3]
    norm_num
  have hrcpv : rcpOf srcC destC = -12/5 := by
    rw [rcpOf, hd1v]
    norm_num
  have hCv : Cof srcC destC = -1/5 := by
    rw [Cof, hrcpv, hkf2, hkf3, hkx2, hky2, hkx3, hky3]
    norm_num
  have hFv : Fof srcC destC = -3/5 := by
    rw [Fof, hrcpv, hkc2, hkc3, hkx2, hky2, hkx3, hky3]
    norm_num
  have q0 : calcProjectionMatrix srcC destC 0 = 8/5 := by
    rw [calcProjectionMatrix_e0, hkx0, hCv, hkc0]
    norm_num
  have q1 : calcProjectionMatrix srcC destC 1 = 3/5 := by
    rw [calcProjectionMatrix_e1, hkx1, hCv, hkc1]
    norm_num
  have q2 : calcProjectionMatrix srcC destC 2 = -1/5 := by
    rw [calcProjectionMatrix_e2, hCv]
  have q3 : calcProjectionMatrix srcC destC 3 = 0 := by
    rw [calcProjectionMatrix_e3, hky0, hFv, hkf0]
    norm_num
  have q4 : calcProjectionMatrix srcC destC 4 = 9/5 := by
    rw [calcProjectionMatrix_e4, hky1, hFv, hkf1]
    norm_num
  have q5 : calcProjectionMatrix srcC destC 5 = -3/5 := by
    rw [calcProjectionMatrix_e5, hFv]
  have q6 : calcProjectionMatrix srcC destC 6 = 0 := by
    rw [calcProjectionMatrix_e6, hkx2, hCv, hkc2]
    norm_num
  have q7 : calcProjectionMatrix srcC destC 7 = 1/5 := by
    rw [calcProjectionMatrix_e7, hkx3, hCv, hkc3]
    norm_num
  have hs1 : (srcC 0).1 = 0 := rfl
  have hs2 : (srcC 0).2 = 1 := rfl
  refine ⟨hs1, ?_, ?_, ?_, ?_, ?_⟩
  · norm_num [srcC, destC, kvec, invert4, inv4core, det4, txMatOf, tyMatOf, corrMat, Zadj, Matrix.of_apply, Matrix.cons_val_zero, Matrix.cons_val_one, Matrix.cons_val_two, Matrix.cons_val_three, Matrix.head_cons, Matrix.vecHead, Matrix.vecTail]
  · norm_num [srcC, destC, kvec, invert4, inv4core, det4, txMatOf, tyMatOf, corrMat, Zadj, Matrix.of_apply, Matrix.cons_val_zero, Matrix.cons_val_one, Matrix.cons_val_two, Matrix.cons_val_three, Matrix.head_cons, Matrix.vecHead, Matrix.vecTail]
  · rw [hd1v]
    norm_num
  · rw [hs1, hs2, q6, q7, calcProjectionMatrix_e8]
    norm_num
  · have hval : (createTransformBy ⟨srcC, destC⟩).transform (srcC 0) = (1/3, 1) := by
      simp only [createTransformBy, ProjectiveTransform.transform]
      rw [q0, q1, q2, q3, q4, q5, q6, q7, calcProjectionMatrix_e8, hs1, hs2]
      norm_num [Prod.ext_iff]
    rw [hval, show destC 0 = ((1 : ℚ), (1 : ℚ)) from rfl]
    simp [Prod.ext_iff]

/-! ## C1: determinism of renderImage -/

/-- C1.  renderImage, modelled as a pure function from identifier, counter
and canvas size to the draw-call log (with the generator state created
afresh inside each invocation, as in the source), yields equal logs for
equal inputs on any two runs, for every interpretation of the
transcendental functions. -/
theorem renderImage_deterministic (ops : TrigOps) (width height : ℚ)
    (address : String) (gasUsed : ℤ) :
    renderImage ops width height address gasUsed =
      renderImage ops width height address gasUsed := rfl

end Gasfire
